import Mathlib

/-!
# Omni_Learn: device-adaptive content and fidelity selection

A shallow embedding of the decision functions of
`src/device-adapter-service.js` (device classification), of its continuation
kept in `src/dashboard-component.js` lines 112-316 (performance score, avatar
fidelity tier, content quality tier, interaction modes, media probe), of
`adaptContentForDevice` and `getCourseProgress` in
`src/completed-learning-provider.js`, of `initializeAvatar` in
`src/avatar-system.js`, of `processActivityData` and `calculateStreak` in
`src/learning-path-card.js`, and of the width-only classifier of
`src/omnilearn-web-app.js`.

Conventions of the embedding.

* JavaScript numbers are modelled by exact numbers: `Int` for the integer
  fields (`innerWidth`, `innerHeight`, `screenWidth`, `screenHeight`,
  `cpuCores`) and `ℚ` for `pixelRatio`, `memory` and the score. Rounding of
  IEEE doubles is not modelled.
* The ambient browser state read by `detectDeviceType` (`window.innerWidth`,
  `window.innerHeight`, `navigator.userAgent`) is passed explicitly as a
  `Window` value.
* A field that is `null` or `undefined` in JavaScript is `none`; truthiness
  tests of the source (`if (capabilities.memory)`) are written out.
* The string constants of the source are kept as strings.
* A promise is modelled by the value it settles to; a function that can throw
  or reject returns `Except`.
* Calendar dates are day numbers, and the current day is passed explicitly.
-/

namespace OmniLearn

/-! ## Constants (src/device-adapter-service.js lines 4-26) -/

namespace DEVICE_TYPES

def MOBILE : String := "mobile"

def TABLET : String := "tablet"

def LAPTOP : String := "laptop"

def DESKTOP : String := "desktop"

end DEVICE_TYPES

namespace AVATAR_FIDELITY

def HIGH : String := "3d_full"

def MEDIUM : String := "2.5d"

def LOW : String := "2d"

def TEXT : String := "text_only"

end AVATAR_FIDELITY

namespace CONTENT_QUALITY

def ULTRA : String := "ultra"

def HIGH : String := "high"

def MEDIUM : String := "medium"

def LOW : String := "low"

def MINIMAL : String := "minimal"

end CONTENT_QUALITY

/-! ## Data model -/

/-- The browser state read by `detectDeviceType`. -/
structure Window where
  innerWidth : Int
  innerHeight : Int
  userAgent : String
  deriving Repr, DecidableEq

/-- The object returned by `getConnectionInfo`, restricted to the two fields the
decision functions read. `effectiveType` is `none` when the field is
`undefined`; `saveData` records the truthiness of the field. -/
structure Connection where
  effectiveType : Option String
  saveData : Bool
  deriving Repr, DecidableEq

/-- The `capabilities` object, restricted to the fields read by
`calculatePerformanceScore`, `determineAvatarFidelity` and
`determineContentQuality`. `connection` and `memory` are `none` when the
source holds `null`. -/
structure Capabilities where
  screenWidth : Int
  screenHeight : Int
  pixelRatio : ℚ
  hasWebGL : Bool
  cpuCores : Int
  connection : Option Connection
  memory : Option ℚ
  deriving Repr, DecidableEq

/-! ## Device classifier (src/device-adapter-service.js lines 29-51) -/

/-- The alternatives of the regular expression
`/Android|webOS|iPhone|iPad|iPod|BlackBerry|IEMobile|Opera Mini/i`. -/
def mobileUserAgentWords : List String :=
  ["Android", "webOS", "iPhone", "iPad", "iPod", "BlackBerry", "IEMobile", "Opera Mini"]

/-- Characters of a string with ASCII letters folded to lower case, the
comparison key of a case-insensitive match against an ASCII pattern. -/
def foldCase (s : String) : List Char :=
  s.toList.map Char.toLower

/-- Whether `text` begins with `word`. -/
def beginsWith : List Char → List Char → Bool
  | [], _ => true
  | _ :: _, [] => false
  | a :: word, b :: text => a == b && beginsWith word text

/-- Whether `word` occurs somewhere in `text` (an unanchored match). -/
def occursIn (word : List Char) : List Char → Bool
  | [] => beginsWith word []
  | b :: text => beginsWith word (b :: text) || occursIn word text

/-- The test `/Android|...|Opera Mini/i.test(userAgent)` of line 35. -/
def isMobileUserAgent (userAgent : String) : Bool :=
  mobileUserAgentWords.any fun word => occursIn (foldCase word) (foldCase userAgent)

/-- Source: `detectDeviceType`, lines 29-51, reading the window state `w`. -/
def detectDeviceType (w : Window) : String :=
  let width := w.innerWidth
  let height := w.innerHeight
  let userAgent := w.userAgent
  if isMobileUserAgent userAgent then
    if min width height < 768 then
      DEVICE_TYPES.MOBILE
    else
      DEVICE_TYPES.TABLET
  else if width < 1024 then
    DEVICE_TYPES.TABLET
  else if width ≥ 1024 ∧ width < 1440 then
    DEVICE_TYPES.LAPTOP
  else
    DEVICE_TYPES.DESKTOP

/-! ## Performance scorer (src/dashboard-component.js lines 203-236) -/

/-- Source: `calculatePerformanceScore`, lines 203-236. The running variable
`score` is rebound after each contribution. -/
def calculatePerformanceScore (capabilities : Capabilities) : ℚ :=
  let score : ℚ := 0
  -- CPU cores contribution
  let score := score + min ((capabilities.cpuCores : ℚ) * 4) 25
  -- Screen resolution contribution
  let pixelCount : ℚ :=
    (capabilities.screenWidth : ℚ) * (capabilities.screenHeight : ℚ) * capabilities.pixelRatio
  let score :=
    if pixelCount > 4000000 then score + 20
    else if pixelCount > 2000000 then score + 15
    else if pixelCount > 1000000 then score + 10
    else score + 5
  -- WebGL support
  let score := if capabilities.hasWebGL then score + 25 else score
  -- Connection quality
  let score :=
    match capabilities.connection with
    | some connection =>
      if connection.effectiveType = some "4g" then score + 20
      else if connection.effectiveType = some "3g" then score + 15
      else if connection.effectiveType = some "2g" then score + 5
      else score
    | none => score + 10
  -- Memory: `if (capabilities.memory)` is false for `null` and for `0`
  let score :=
    match capabilities.memory with
    | some memory => if memory ≠ 0 then score + min memory 10 else score + 5
    | none => score + 5
  score

/-! ## Tier selector (src/dashboard-component.js lines 183-200 and 239-286) -/

/-- Source: the threshold chain of `determineAvatarFidelity`, lines 191-199,
as a function of the two local constants `deviceType` and `performanceScore`. -/
def avatarFidelityChain (deviceType : String) (performanceScore : ℚ) : String :=
  if deviceType = DEVICE_TYPES.DESKTOP ∧ performanceScore > 70 then
    AVATAR_FIDELITY.HIGH
  else if (deviceType = DEVICE_TYPES.DESKTOP ∨ deviceType = DEVICE_TYPES.LAPTOP)
      ∧ performanceScore > 40 then
    AVATAR_FIDELITY.MEDIUM
  else if deviceType = DEVICE_TYPES.MOBILE ∧ performanceScore < 30 then
    AVATAR_FIDELITY.TEXT
  else
    AVATAR_FIDELITY.LOW

/-- Source: `determineAvatarFidelity`, lines 183-200. -/
def determineAvatarFidelity (w : Window) (capabilities : Capabilities) : String :=
  if !capabilities.hasWebGL then
    AVATAR_FIDELITY.TEXT
  else
    let deviceType := detectDeviceType w
    let performanceScore := calculatePerformanceScore capabilities
    avatarFidelityChain deviceType performanceScore

/-- Source: the `switch` on `capabilities.connection.effectiveType`, lines
250-270. Every case returns. -/
def contentQualityByConnection (deviceType : String) (performanceScore : ℚ)
    (connection : Connection) : String :=
  if connection.effectiveType = some "4g" then
    if deviceType = DEVICE_TYPES.DESKTOP ∧ performanceScore > 70 then
      CONTENT_QUALITY.ULTRA
    else if performanceScore > 50 then
      CONTENT_QUALITY.HIGH
    else
      CONTENT_QUALITY.MEDIUM
  else if connection.effectiveType = some "3g" then
    if performanceScore > 60 then
      CONTENT_QUALITY.MEDIUM
    else
      CONTENT_QUALITY.LOW
  else if connection.effectiveType = some "2g"
      ∨ connection.effectiveType = some "slow-2g" then
    CONTENT_QUALITY.MINIMAL
  else
    CONTENT_QUALITY.MEDIUM

/-- Source: the fallback `switch (deviceType)`, lines 274-285. -/
def contentQualityByDevice (deviceType : String) : String :=
  if deviceType = DEVICE_TYPES.DESKTOP then CONTENT_QUALITY.HIGH
  else if deviceType = DEVICE_TYPES.LAPTOP then CONTENT_QUALITY.MEDIUM
  else if deviceType = DEVICE_TYPES.TABLET then CONTENT_QUALITY.MEDIUM
  else if deviceType = DEVICE_TYPES.MOBILE then CONTENT_QUALITY.LOW
  else CONTENT_QUALITY.MEDIUM

/-- Source: the body of `determineContentQuality` after its two local
constants, lines 243-285, as a function of `deviceType`, `performanceScore`
and `capabilities`. -/
def contentQualityFrom (deviceType : String) (performanceScore : ℚ)
    (capabilities : Capabilities) : String :=
  -- Check for save-data mode
  if (match capabilities.connection with
      | some connection => connection.saveData
      | none => false) then
    CONTENT_QUALITY.MINIMAL
  else
    match capabilities.connection with
    | some connection => contentQualityByConnection deviceType performanceScore connection
    | none => contentQualityByDevice deviceType

/-- Source: `determineContentQuality`, lines 239-286. -/
def determineContentQuality (w : Window) (capabilities : Capabilities) : String :=
  let deviceType := detectDeviceType w
  let performanceScore := calculatePerformanceScore capabilities
  contentQualityFrom deviceType performanceScore capabilities

/-! ## Contributions to the score -/

/-- The screen bucket in the words of the specification: more than 4,000,000
effective pixels gives 20, more than 2,000,000 gives 15, more than 1,000,000
gives 10, anything else 5 (all comparisons strict). -/
def screenBucket (pixelCount : ℚ) : ℚ :=
  if pixelCount > 4000000 then 20
  else if pixelCount > 2000000 then 15
  else if pixelCount > 1000000 then 10
  else 5

/-- The amount added by lines 220-226 of the source: a present connection
whose `effectiveType` is none of `4g`, `3g`, `2g` adds nothing. -/
def connectionTerm : Option Connection → ℚ
  | some connection =>
    if connection.effectiveType = some "4g" then 20
    else if connection.effectiveType = some "3g" then 15
    else if connection.effectiveType = some "2g" then 5
    else 0
  | none => 10

/-- The amount added by lines 229-233 of the source. -/
def memoryTerm : Option ℚ → ℚ
  | some memory => if memory ≠ 0 then min memory 10 else 5
  | none => 5

/-- The connection term in the words of the specification, for the cases the
score formula names: 20 for `4g`, 15 for `3g`, 5 for `2g`, 10 when the
connection is absent. `connectionTermIs conn k` says the formula assigns `k`. -/
def connectionTermIs (connection : Option Connection) (k : ℚ) : Prop :=
  (connection = none ∧ k = 10)
  ∨ ∃ conn, connection = some conn ∧
      ((conn.effectiveType = some "4g" ∧ k = 20)
        ∨ (conn.effectiveType = some "3g" ∧ k = 15)
        ∨ (conn.effectiveType = some "2g" ∧ k = 5))

/-- The memory term in the words of the specification: `min(memory, 10)` when
memory is present, 5 when it is absent. -/
def memoryTermSpec : Option ℚ → ℚ
  | some memory => min memory 10
  | none => 5

/-- A capabilities value with its connection replaced by one of the given
`effectiveType` (save-data off). -/
def withEffectiveType (c : Capabilities) (effectiveType : String) : Capabilities :=
  { c with connection := some { effectiveType := some effectiveType, saveData := false } }

/-! ## Sample inputs -/

/-- A desktop browser window of 1920 by 1080. -/
def desktopWindow : Window :=
  { innerWidth := 1920, innerHeight := 1080, userAgent := "Mozilla/5.0 (X11; Linux x86_64)" }

/-- A phone in portrait orientation. -/
def phoneWindow : Window :=
  { innerWidth := 390, innerHeight := 844,
    userAgent := "Mozilla/5.0 (iPhone; CPU iPhone OS 16_0 like Mac OS X)" }

/-- The capabilities of scenario 1 of the specification: no WebGL, 4 cores,
1920 by 1080 at pixel ratio 1, a 4g connection, no memory hint. -/
def scenarioCaps : Capabilities :=
  { screenWidth := 1920, screenHeight := 1080, pixelRatio := 1, hasWebGL := false,
    cpuCores := 4, connection := some { effectiveType := some "4g", saveData := false },
    memory := none }

/-- The device classifier in the words of the specification (section 4.3): a
two-stage rule on the width, the height and whether the user agent is a known
mobile one. -/
def classify (screenWidth screenHeight : Int) (isKnownMobileUserAgent : Bool) : String :=
  match isKnownMobileUserAgent with
  | true => if min screenWidth screenHeight < 768 then "mobile" else "tablet"
  | false =>
    if screenWidth < 1024 then "tablet"
    else if screenWidth < 1440 then "laptop"
    else "desktop"

/-- A tablet held upright. -/
def tabletWindow : Window :=
  { innerWidth := 768, innerHeight := 1024,
    userAgent := "Mozilla/5.0 (iPad; CPU OS 16_0 like Mac OS X)" }

/-- A desktop browser window exactly 1440 wide. -/
def window1440 : Window :=
  { innerWidth := 1440, innerHeight := 900, userAgent := "Mozilla/5.0 (X11; Linux x86_64)" }

/-- A desktop browser window exactly 1024 wide. -/
def window1024 : Window :=
  { innerWidth := 1024, innerHeight := 768, userAgent := "Mozilla/5.0 (X11; Linux x86_64)" }

/-- WebGL, 4 cores, 1920 by 1080, no connection information, 4 GB: score 70. -/
def caps70 : Capabilities :=
  { screenWidth := 1920, screenHeight := 1080, pixelRatio := 1, hasWebGL := true,
    cpuCores := 4, connection := none, memory := some 4 }

/-- WebGL, 1 core, 1440 by 900, a slow-2g connection, 1 GB: score 40. -/
def caps40 : Capabilities :=
  { screenWidth := 1440, screenHeight := 900, pixelRatio := 1, hasWebGL := true,
    cpuCores := 1, connection := some { effectiveType := some "slow-2g", saveData := false },
    memory := some 1 }

/-- WebGL, 8 cores, 768 by 1024 at pixel ratio 2, 4g, 8 GB: score 88. -/
def caps88 : Capabilities :=
  { screenWidth := 768, screenHeight := 1024, pixelRatio := 2, hasWebGL := true,
    cpuCores := 8, connection := some { effectiveType := some "4g", saveData := false },
    memory := some 8 }

/-! ## Interaction mode resolver (src/dashboard-component.js lines 289-305) -/

/-- A value held by `hasMicrophone` or `hasCamera`: `hasMediaDevices` returns
the boolean `false` when the enumeration API is missing and otherwise a
promise (of a boolean), which is an object. -/
inductive Flag where
  | bool (b : Bool)
  | promise (resolvesTo : Bool)
  deriving Repr, DecidableEq

/-- JavaScript truthiness of a flag: a promise is an object, hence truthy. -/
def Flag.truthy : Flag → Bool
  | Flag.bool b => b
  | Flag.promise _ => true

/-- The JavaScript expression `a && b` for a boolean `a`: `a` itself when it is
false, otherwise `b`. -/
def jsAnd (a : Bool) (b : Flag) : Flag :=
  if a then b else Flag.bool a

/-- The fields of the object returned by `detectDeviceCapabilities` that
`getInteractionModes` reads. -/
structure InteractionCapabilities where
  touchSupport : Bool
  hasMicrophone : Flag
  hasCamera : Flag
  hasGyroscope : Bool
  hasARSupport : Bool
  deriving Repr, DecidableEq

/-- The object `modes` built by `getInteractionModes`. -/
structure InteractionModes where
  touch : Bool
  keyboard : Bool
  mouse : Bool
  stylus : Bool
  voice : Flag
  gesture : Flag
  ar : Flag
  motion : Bool
  deriving Repr, DecidableEq

/-- Source: the object literal of lines 293-302, as a function of the two
local constants `deviceType` and `capabilities`. -/
def interactionModesFrom (deviceType : String) (capabilities : InteractionCapabilities) :
    InteractionModes :=
  { touch := capabilities.touchSupport
    keyboard := decide (deviceType ≠ DEVICE_TYPES.MOBILE ∧ deviceType ≠ DEVICE_TYPES.TABLET)
    mouse := decide (deviceType ≠ DEVICE_TYPES.MOBILE ∧ deviceType ≠ DEVICE_TYPES.TABLET)
    stylus := decide (deviceType = DEVICE_TYPES.TABLET)
    voice := capabilities.hasMicrophone
    gesture := capabilities.hasCamera
    ar := jsAnd capabilities.hasARSupport capabilities.hasCamera
    motion := capabilities.hasGyroscope }

/-- Source: `getInteractionModes`, lines 289-305. The window state `w` and the
result `capabilities` of `detectDeviceCapabilities()` are passed explicitly. -/
def getInteractionModes (w : Window) (capabilities : InteractionCapabilities) :
    InteractionModes :=
  let deviceType := detectDeviceType w
  interactionModesFrom deviceType capabilities

/-! ## Content adapter (src/completed-learning-provider.js lines 110-158) -/

/-- One element of `module.content`. The fields the adapter reads or writes
are named; `rest` stands for every other field, which the object spread
`...item` copies. A field that is missing or `undefined` is `none`;
`requiresWebGL` records the truthiness of the field. -/
structure ContentItem where
  type : String
  content : Option String
  fallbackContent : Option String
  requiresWebGL : Bool
  quality : Option String
  size : Option String
  rest : List (String × String)
  deriving Repr, DecidableEq

/-- A learning module: its `content` array and every other field (`rest`). -/
structure Module where
  content : List ContentItem
  rest : List (String × String)
  deriving Repr, DecidableEq

/-- The object `capabilities.networkInfo`. -/
structure NetworkInfo where
  bandwidth : String
  deriving Repr, DecidableEq

/-- The object `deviceInfo.capabilities`, restricted to the fields
`adaptContentForDevice` reads. -/
structure DeviceCapabilities where
  processingPower : String
  hasWebGL : Bool
  networkInfo : NetworkInfo
  deriving Repr, DecidableEq

/-- The argument `deviceInfo` of `adaptContentForDevice`, with every field the
function reads present (a `deviceInfo` lacking `capabilities.networkInfo`
makes the source throw and is not a value of this type). -/
structure DeviceInfo where
  type : String
  capabilities : DeviceCapabilities
  deriving Repr, DecidableEq

/-- Source: the callback of the first `map`, lines 117-126. -/
def simplifyItem (item : ContentItem) : ContentItem :=
  if item.type = "3d-model" ∨ item.type = "complex-simulation" then
    { item with type := "simplified-image", content := item.fallbackContent }
  else
    item

/-- Source: the callback of the second `map`, lines 131-140. -/
def replaceWebGLItem (item : ContentItem) : ContentItem :=
  if item.requiresWebGL then
    { item with type := "video", content := item.fallbackContent }
  else
    item

/-- Source: the callback of the third `map`, lines 145-154. -/
def compressItem (item : ContentItem) : ContentItem :=
  if item.type = "video" ∨ item.type = "high-res-image" then
    { item with quality := some "low", size := some "compressed" }
  else
    item

/-- Source: `adaptContentForDevice`, lines 110-158. The function is `async`
but awaits nothing; the value is the module its promise resolves to. Each of
the three blocks assigns `adaptedModule.content` from `module.content`, the
content of the argument. -/
def adaptContentForDevice (module : Module) (deviceInfo : DeviceInfo) : Module :=
  let type := deviceInfo.type
  let capabilities := deviceInfo.capabilities
  let adaptedModule : Module := { module with }
  -- Adjust content based on device type and capabilities
  let adaptedModule : Module :=
    if type = "mobile" ∨ capabilities.processingPower = "low" then
      { adaptedModule with content := module.content.map simplifyItem }
    else adaptedModule
  -- Replace WebGL content with alternatives
  let adaptedModule : Module :=
    if !capabilities.hasWebGL then
      { adaptedModule with content := module.content.map replaceWebGLItem }
    else adaptedModule
  -- Optimize for low bandwidth
  let adaptedModule : Module :=
    if capabilities.networkInfo.bandwidth = "low" then
      { adaptedModule with content := module.content.map compressItem }
    else adaptedModule
  adaptedModule

/-- The effect of `adaptContentForDevice` on one item (a derived definition,
related to the source function by `adaptContentForDevice_eq_map`): the
callback of the last block whose condition holds, as each block maps the
content of the argument. -/
def adaptItem (deviceInfo : DeviceInfo) (item : ContentItem) : ContentItem :=
  if deviceInfo.capabilities.networkInfo.bandwidth = "low" then compressItem item
  else if !deviceInfo.capabilities.hasWebGL then replaceWebGLItem item
  else if deviceInfo.type = "mobile" ∨ deviceInfo.capabilities.processingPower = "low" then
    simplifyItem item
  else item

/-- A phone with WebGL, high processing power and the given bandwidth class. -/
def phoneInfo (bandwidth : String) : DeviceInfo :=
  { type := "mobile",
    capabilities :=
      { processingPower := "high", hasWebGL := true, networkInfo := { bandwidth := bandwidth } } }

/-- A desktop without WebGL, high processing power and the given bandwidth class. -/
def noWebGLInfo (bandwidth : String) : DeviceInfo :=
  { type := "desktop",
    capabilities :=
      { processingPower := "high", hasWebGL := false, networkInfo := { bandwidth := bandwidth } } }

/-- A 3D model that needs WebGL and declares a fallback. -/
def modelItem : ContentItem :=
  { type := "3d-model", content := some "heart.glb", fallbackContent := some "heart.mp4",
    requiresWebGL := true, quality := none, size := none, rest := [("id", "c1")] }

/-- A 3D model that does not need WebGL and declares a fallback. -/
def plainModelItem : ContentItem :=
  { type := "3d-model", content := some "cube.obj", fallbackContent := some "cube.png",
    requiresWebGL := false, quality := none, size := none, rest := [("id", "c2")] }

/-- A 3D model without a fallback. -/
def bareModelItem : ContentItem :=
  { type := "3d-model", content := some "atom.obj", fallbackContent := none,
    requiresWebGL := false, quality := none, size := none, rest := [("id", "c3")] }

/-- A video. -/
def videoItem : ContentItem :=
  { type := "video", content := some "intro.mp4", fallbackContent := none,
    requiresWebGL := false, quality := some "high", size := none, rest := [("id", "c4")] }

/-- A video that needs WebGL and declares a fallback. -/
def webglVideoItem : ContentItem :=
  { type := "video", content := some "heart-3d.webm", fallbackContent := some "heart.mp4",
    requiresWebGL := true, quality := none, size := none, rest := [("id", "c6")] }

/-- A text item, which no rule matches. -/
def textItem : ContentItem :=
  { type := "text", content := some "Welcome", fallbackContent := none,
    requiresWebGL := false, quality := none, size := none, rest := [("id", "c5")] }

/-- A module holding the given items. -/
def moduleOf (items : List ContentItem) : Module :=
  { content := items, rest := [("id", "m1"), ("title", "Anatomy")] }

/-! ## Capability probe (src/dashboard-component.js lines 127-141,
src/device-adapter-service.js lines 54-72) -/

/-- One entry of the list `enumerateDevices()` resolves to. -/
structure MediaDevice where
  kind : String
  deriving Repr, DecidableEq

/-- The outcome of `navigator.mediaDevices.enumerateDevices()`: the promise
resolves to a list of devices or rejects. -/
inductive MediaEnumeration where
  | resolves (devices : List MediaDevice)
  | rejects
  deriving Repr, DecidableEq

/-- The browser state read by `detectDeviceCapabilities` for the fields of
`InteractionCapabilities`. `mediaDevices` is `none` when
`navigator.mediaDevices` or its `enumerateDevices` is missing. -/
structure Navigator where
  ontouchstart : Bool
  mediaDevices : Option MediaEnumeration
  deviceOrientationEvent : Bool
  xrSystem : Bool
  deriving Repr, DecidableEq

/-- Source: `hasMediaDevices`, lines 127-141. The function returns the boolean
`false` when enumeration is unsupported and otherwise a promise, which
resolves to whether some device has the given kind, or to `false` when the
enumeration rejects. -/
def hasMediaDevices (mediaDevices : Option MediaEnumeration) (kind : String) : Flag :=
  match mediaDevices with
  | none => Flag.bool false
  | some (MediaEnumeration.resolves devices) =>
    Flag.promise (devices.any fun device => device.kind == kind)
  | some MediaEnumeration.rejects => Flag.promise false

/-- Source: `detectDeviceCapabilities`, src/device-adapter-service.js lines
54-72, restricted to the fields of `InteractionCapabilities`. The function is
synchronous: the values of `hasMediaDevices` are stored as returned. -/
def detectDeviceCapabilities (navigator : Navigator) : InteractionCapabilities :=
  { touchSupport := navigator.ontouchstart
    hasMicrophone := hasMediaDevices navigator.mediaDevices "audioinput"
    hasCamera := hasMediaDevices navigator.mediaDevices "videoinput"
    hasGyroscope := navigator.deviceOrientationEvent
    hasARSupport := navigator.xrSystem }

/-- A browser with the enumeration API and no media device at all. -/
def bareNavigator : Navigator :=
  { ontouchstart := false, mediaDevices := some (MediaEnumeration.resolves []),
    deviceOrientationEvent := false, xrSystem := false }

/-! ## Orders on tiers and connection classes -/

/-- The position of a content quality tier in the order
minimal < low < medium < high < ultra. -/
def tierRank (tier : String) : Nat :=
  if tier = CONTENT_QUALITY.MINIMAL then 0
  else if tier = CONTENT_QUALITY.LOW then 1
  else if tier = CONTENT_QUALITY.MEDIUM then 2
  else if tier = CONTENT_QUALITY.HIGH then 3
  else 4

/-- The position of an effective type in the order slow-2g, 2g, 3g, 4g. -/
def connectionRank (effectiveType : String) : Nat :=
  if effectiveType = "slow-2g" then 0
  else if effectiveType = "2g" then 1
  else if effectiveType = "3g" then 2
  else 3

/-- The four effective types of the data model. -/
def effectiveTypes : List String := ["slow-2g", "2g", "3g", "4g"]

/-! ## Device provider (src/omnilearn-web-app.js lines 259-288 and 413-436) -/

/-- Source: the width-only `detectDeviceType` of `DeviceProvider`,
src/omnilearn-web-app.js lines 282-288. -/
def providerDetectDeviceType (w : Window) : String :=
  let width := w.innerWidth
  if width < 768 then "mobile"
  else if width < 1024 then "tablet"
  else if width < 1440 then "laptop"
  else "desktop"

/-- The `capabilities` record of a `deviceInfo` as callers may pass it:
`networkInfo` is `none` when the record has no such field. -/
structure PassedCapabilities where
  processingPower : String
  hasWebGL : Bool
  networkInfo : Option NetworkInfo
  deriving Repr, DecidableEq

/-- A `deviceInfo` as callers may pass it; `networkInfo` is the sibling field
that `DeviceProvider` publishes next to `capabilities`. -/
structure PassedDeviceInfo where
  type : String
  capabilities : PassedCapabilities
  networkInfo : Option NetworkInfo
  deriving Repr, DecidableEq

/-- Source: `adaptContentForDevice`, lines 110-158, on a `deviceInfo` whose
`capabilities.networkInfo` may be missing. The first two blocks only build a
local copy; line 143 then reads `capabilities.networkInfo.bandwidth`, which
throws a TypeError when `capabilities.networkInfo` is `undefined`, so the
promise rejects. Otherwise the result is that of `adaptContentForDevice`. -/
def adaptContentForDeviceOn (module : Module) (deviceInfo : PassedDeviceInfo) :
    Except String Module :=
  match deviceInfo.capabilities.networkInfo with
  | none => Except.error "TypeError: Cannot read properties of undefined (reading bandwidth)"
  | some networkInfo =>
    Except.ok (adaptContentForDevice module
      { type := deviceInfo.type,
        capabilities :=
          { processingPower := deviceInfo.capabilities.processingPower,
            hasWebGL := deviceInfo.capabilities.hasWebGL,
            networkInfo := networkInfo } })

/-- The initial state of `DeviceProvider`, src/omnilearn-web-app.js lines
259-278, restricted to the fields read here. -/
def providerInitialInfo : PassedDeviceInfo :=
  { type := "unknown",
    capabilities := { processingPower := "medium", hasWebGL := false, networkInfo := none },
    networkInfo := some { bandwidth := "unknown" } }

/-- A state published by `updateDeviceInfo`, lines 413-436: a laptop with WebGL
on a fast connection. -/
def providerLaptopInfo : PassedDeviceInfo :=
  { type := "laptop",
    capabilities := { processingPower := "high", hasWebGL := true, networkInfo := none },
    networkInfo := some { bandwidth := "high" } }

/-! ## Avatar initialization (src/avatar-system.js lines 31-63) -/

/-- The document returned by `getUserProfile`, restricted to
`devicePreferences`: for each device type that has an entry, the value of its
`avatarFidelity` field (`none` when the entry has no such field). A profile
without `devicePreferences` has the empty list. -/
structure UserProfile where
  devicePreferences : List (String × Option String)
  deriving Repr, DecidableEq

/-- The expression `userProfile?.devicePreferences?.[deviceType]?.avatarFidelity`
of line 43. -/
def storedAvatarFidelity (userProfile : UserProfile) (deviceType : String) : Option String :=
  (userProfile.devicePreferences.lookup deviceType).bind id

/-- The expression `value || null` of line 43 for a string or `undefined`: the
empty string is falsy. -/
def orNull (value : Option String) : Option String :=
  match value with
  | some text => if text = "" then none else some text
  | none => none

/-- Source: `initializeAvatar`, lines 31-63, up to `setAvatarFidelity`: the
result is the fidelity passed to `setAvatarFidelity`, or the error caught by
the `catch` block when `getUserProfile` rejects. `capabilities` is the result
of `detectDeviceCapabilities()` and `getUserProfile` the outcome of the
profile lookup for a user id. -/
def initializeAvatar (w : Window) (capabilities : Capabilities) (currentUser : Option String)
    (getUserProfile : String → Except String UserProfile) : Except String String :=
  -- Get user preferences if logged in
  let userPreferredFidelity : Except String (Option String) :=
    match currentUser with
    | some uid =>
      match getUserProfile uid with
      | Except.ok userProfile =>
        let deviceType := detectDeviceType w
        Except.ok (orNull (storedAvatarFidelity userProfile deviceType))
      | Except.error err => Except.error err
    | none => Except.ok none
  match userPreferredFidelity with
  | Except.error err => Except.error err
  | Except.ok userPreferredFidelity =>
    -- Determine avatar fidelity
    let detectedFidelity := determineAvatarFidelity w capabilities
    let fidelity :=
      match userPreferredFidelity with
      | some preferred => if preferred ≠ "" then preferred else detectedFidelity
      | none => detectedFidelity
    Except.ok fidelity

/-- A profile that stores the full 3D avatar for desktops. -/
def fullAvatarProfile : UserProfile :=
  { devicePreferences := [("mobile", none), ("desktop", some "3d_full")] }

/-! ## Learning streak (src/learning-path-card.js lines 284-347) -/

/-- The JavaScript `Math.round`: the nearest integer, halves rounded up. -/
def jsRound (x : ℚ) : Int :=
  ⌊x + 1 / 2⌋

/-- One activity record: the day of `activity.date` (as the number of its UTC
calendar day) and `timeSpent` in seconds. -/
structure Activity where
  date : Int
  timeSpent : ℚ
  deriving Repr, DecidableEq

/-- One entry of `last7Days`: its calendar day and the minutes summed so far
(the weekday label is not read by `calculateStreak` and left out). -/
structure DayActivity where
  date : Int
  minutes : Int
  deriving Repr, DecidableEq

/-- Source: lines 305-310, the `findIndex` on the date followed by the update
of the entry found: the first entry with the given date gains the minutes, and
nothing changes when there is none. -/
def addMinutes (date : Int) (minutes : Int) : List DayActivity → List DayActivity
  | [] => []
  | day :: days =>
    if day.date = date then { day with minutes := day.minutes + minutes } :: days
    else day :: addMinutes date minutes days

/-- Source: `processActivityData`, lines 285-314, with `today` the calendar
day of `new Date()`. The loop runs `i` from 6 down to 0. -/
def processActivityData (today : Int) (activityData : List Activity) : List DayActivity :=
  let last7Days : List DayActivity :=
    [6, 5, 4, 3, 2, 1, 0].map fun i => { date := today - i, minutes := 0 }
  activityData.foldl
    (fun last7Days activity =>
      addMinutes activity.date (jsRound (activity.timeSpent / 60)) last7Days)
    last7Days

/-- Source: `calculateStreak`, lines 317-347, with `today` the calendar day of
`new Date()`. The counting loop starts at index 0 of the array. -/
def calculateStreak (today : Int) (activityByDay : List DayActivity) : Nat :=
  let todayActivity := activityByDay.find? fun day => day.date == today
  let hadActivityToday : Bool :=
    match todayActivity with
    | some day => decide (day.minutes > 0)
    | none => false
  let yesterdayMissing : Bool :=
    match activityByDay.find? fun day => day.date == today - 1 with
    | some day => decide (day.minutes = 0)
    | none => true
  if !hadActivityToday && yesterdayMissing then
    0
  else
    -- Count consecutive days with activity
    (activityByDay.takeWhile fun day => decide (day.minutes > 0)).length

/-- The current streak in the words of the claim, for an array ordered from
the oldest day to today: the number of consecutive days with minutes > 0
ending at today, or ending at yesterday when today has no activity. -/
def currentStreak (activityByDay : List DayActivity) : Nat :=
  match activityByDay.reverse with
  | [] => 0
  | todayEntry :: earlier =>
    if todayEntry.minutes > 0 then
      ((todayEntry :: earlier).takeWhile fun day => decide (day.minutes > 0)).length
    else
      (earlier.takeWhile fun day => decide (day.minutes > 0)).length

/-! ## Course progress (src/completed-learning-provider.js lines 160-178) -/

/-- A lesson of a module. -/
structure Lesson where
  id : String
  deriving Repr, DecidableEq

/-- A module of a course, with its lessons. -/
structure CourseModule where
  id : String
  lessons : List Lesson
  deriving Repr, DecidableEq

/-- A course, with its modules. -/
structure Course where
  id : String
  modules : List CourseModule
  deriving Repr, DecidableEq

/-- Source: the two nested `forEach` loops of lines 168-175, as the pair
(completedLessons, totalLessons). `progress moduleId lessonId` is the
truthiness of `progress[module.id]?.[lesson.id]?.completed`. -/
def countLessons (progress : String → String → Bool) (course : Course) : Nat × Nat :=
  course.modules.foldl
    (fun counts module =>
      module.lessons.foldl
        (fun counts lesson =>
          (if progress module.id lesson.id then counts.1 + 1 else counts.1, counts.2 + 1))
        counts)
    (0, 0)

/-- Source: `getCourseProgress`, lines 161-178, over the state `courses` and
`progress` of the provider. The quotient is taken exactly. -/
def getCourseProgress (courses : List Course) (progress : String → String → Bool)
    (courseId : String) : Int :=
  match courses.find? fun c => c.id == courseId with
  | none => 0
  | some course =>
    let counts := countLessons progress course
    let completedLessons := counts.1
    let totalLessons := counts.2
    if totalLessons = 0 then 0
    else jsRound ((completedLessons : ℚ) / (totalLessons : ℚ) * 100)

/-- A lesson id made of `i` tally marks. -/
def tallyId (i : Nat) : String :=
  String.mk (List.replicate i (Char.ofNat 73))

/-- A course of one module with 201 lessons. -/
def longCourse : Course :=
  { id := "anatomy",
    modules := [{ id := "m1", lessons := (List.range 201).map fun i => { id := tallyId i } }] }

/-- Every lesson of the long course is completed but the last one. -/
def allButLast (_moduleId : String) (lessonId : String) : Bool :=
  lessonId.length < 200

/-- The number of lessons of the course whose progress is marked completed. -/
def completedCount (progress : String → String → Bool) (course : Course) : Nat :=
  (course.modules.map fun module =>
    module.lessons.countP fun lesson => progress module.id lesson.id).sum

/-- The number of lessons of the course. -/
def totalCount (course : Course) : Nat :=
  (course.modules.map fun module => module.lessons.length).sum

/-- A course of one module with three lessons. -/
def shortCourse : Course :=
  { id := "intro",
    modules := [{ id := "m1", lessons := [{ id := "l1" }, { id := "l2" }, { id := "l3" }] }] }

/-- Lessons l1 and l2 are completed. -/
def twoOfThree (_moduleId : String) (lessonId : String) : Bool :=
  lessonId == "l1" || lessonId == "l2"

/-! ## Lemmas on the score -/

/-- The score is the sum of the five amounts the source adds, for every input. -/
theorem calculatePerformanceScore_sum (c : Capabilities) :
    calculatePerformanceScore c =
      min ((c.cpuCores : ℚ) * 4) 25
        + screenBucket ((c.screenWidth : ℚ) * (c.screenHeight : ℚ) * c.pixelRatio)
        + (if c.hasWebGL then 25 else 0)
        + connectionTerm c.connection
        + memoryTerm c.memory := by
  unfold calculatePerformanceScore
  lift_lets
  intro s0 s1 pixelCount s2 s3 s4 s5
  have h1 : s1 = min ((c.cpuCores : ℚ) * 4) 25 := by simp [s1, s0]
  have h2 : s2 = s1 + screenBucket pixelCount := by
    simp only [s2, screenBucket]; split_ifs <;> rfl
  have h3 : s3 = s2 + (if c.hasWebGL then 25 else 0) := by
    simp only [s3]; split_ifs <;> simp
  have h4 : s4 = s3 + connectionTerm c.connection := by
    simp only [s4]
    cases c.connection
    · simp only [connectionTerm]
    · simp only [connectionTerm]; split_ifs <;> simp
  have h5 : s5 = s4 + memoryTerm c.memory := by
    simp only [s5]
    cases c.memory
    · simp only [memoryTerm]
    · simp only [memoryTerm]; split_ifs <;> simp
  rw [h5, h4, h3, h2, h1]

theorem screenBucket_bounds (p : ℚ) : 5 ≤ screenBucket p ∧ screenBucket p ≤ 20 := by
  unfold screenBucket
  split_ifs <;> norm_num

theorem connectionTerm_bounds (conn : Option Connection) :
    0 ≤ connectionTerm conn ∧ connectionTerm conn ≤ 20 := by
  cases conn with
  | none => norm_num [connectionTerm]
  | some k => simp only [connectionTerm]; split_ifs <;> norm_num

theorem memoryTerm_le (memory : Option ℚ) : memoryTerm memory ≤ 10 := by
  cases memory with
  | none => norm_num [memoryTerm]
  | some m =>
    simp only [memoryTerm]
    split_ifs
    · exact min_le_right m 10
    · norm_num

theorem memoryTerm_nonneg (memory : Option ℚ) (h : ∀ m, memory = some m → 0 < m) :
    0 ≤ memoryTerm memory := by
  cases memory with
  | none => norm_num [memoryTerm]
  | some m =>
    simp only [memoryTerm]
    split_ifs
    · exact le_min (le_of_lt (h m rfl)) (by norm_num)
    · norm_num

theorem connectionTerm_of_spec (conn : Option Connection) (k : ℚ)
    (h : connectionTermIs conn k) : connectionTerm conn = k := by
  rcases h with ⟨rfl, rfl⟩ | ⟨x, rfl, h4 | h3 | h2⟩
  · rfl
  · simp [connectionTerm, h4.1, h4.2]
  · simp [connectionTerm, h3.1, h3.2]
  · simp [connectionTerm, h2.1, h2.2]

theorem memoryTerm_of_spec (memory : Option ℚ) (h : ∀ m, memory = some m → m ≠ 0) :
    memoryTerm memory = memoryTermSpec memory := by
  cases memory with
  | none => rfl
  | some m => simp [memoryTerm, memoryTermSpec, h m rfl]

theorem desktopWindow_type : detectDeviceType desktopWindow = "desktop" := by decide

theorem phoneWindow_type : detectDeviceType phoneWindow = "mobile" := by decide

/-- Every device class is the class of some window, so a statement over all
windows covers all four classes. -/
theorem detectDeviceType_reaches_all :
    detectDeviceType phoneWindow = "mobile" ∧ detectDeviceType tabletWindow = "tablet"
      ∧ detectDeviceType window1024 = "laptop" ∧ detectDeviceType desktopWindow = "desktop" := by
  decide

/-- The classifier returns one of the four device classes and nothing else. -/
theorem detectDeviceType_range (w : Window) :
    detectDeviceType w = "mobile" ∨ detectDeviceType w = "tablet"
      ∨ detectDeviceType w = "laptop" ∨ detectDeviceType w = "desktop" := by
  unfold detectDeviceType
  simp only [DEVICE_TYPES.MOBILE, DEVICE_TYPES.TABLET, DEVICE_TYPES.LAPTOP, DEVICE_TYPES.DESKTOP]
  split_ifs <;> simp

theorem scenarioCaps_score : calculatePerformanceScore scenarioCaps = 56 := by
  norm_num [calculatePerformanceScore, scenarioCaps]

/-! ## Claims -/

/-- C1. For every capabilities value of the data model (cpuCores a positive
integer, memory absent or positive; the connection may be absent or carry any
effectiveType, and the screen geometry is not even needed), the performance
score lies in the closed interval from 0 to 100. -/
theorem calculatePerformanceScore_in_range (c : Capabilities)
    (hcpu : 0 < c.cpuCores) (hmem : ∀ m, c.memory = some m → 0 < m) :
    0 ≤ calculatePerformanceScore c ∧ calculatePerformanceScore c ≤ 100 := by
  rw [calculatePerformanceScore_sum]
  have hcpuQ : (0 : ℚ) ≤ (c.cpuCores : ℚ) * 4 := by
    have : (0 : ℚ) < (c.cpuCores : ℚ) := by exact_mod_cast hcpu
    linarith
  have c1 : (0 : ℚ) ≤ min ((c.cpuCores : ℚ) * 4) 25 := le_min hcpuQ (by norm_num)
  have c2 : min ((c.cpuCores : ℚ) * 4) 25 ≤ 25 := min_le_right _ _
  have s := screenBucket_bounds ((c.screenWidth : ℚ) * (c.screenHeight : ℚ) * c.pixelRatio)
  have k := connectionTerm_bounds c.connection
  have m1 := memoryTerm_le c.memory
  have m0 := memoryTerm_nonneg c.memory hmem
  have g : (0 : ℚ) ≤ (if c.hasWebGL then 25 else 0) ∧ (if c.hasWebGL then (25 : ℚ) else 0) ≤ 25 := by
    split_ifs <;> norm_num
  constructor <;> linarith [s.1, s.2, k.1, k.2, g.1, g.2]

/-- Witness for C1: scenario 1 of the specification scores 56. -/
theorem calculatePerformanceScore_in_range_witness :
    0 ≤ calculatePerformanceScore scenarioCaps ∧ calculatePerformanceScore scenarioCaps ≤ 100 :=
  calculatePerformanceScore_in_range scenarioCaps (by decide) (by simp [scenarioCaps])

/-- C2. Without WebGL the avatar tier is text_only, for every window state and
every other capability field (hence every device class and every score). -/
theorem determineAvatarFidelity_no_webgl (w : Window) (c : Capabilities)
    (h : c.hasWebGL = false) :
    determineAvatarFidelity w c = AVATAR_FIDELITY.TEXT := by
  simp [determineAvatarFidelity, h]

/-- Witness for C2: scenario 1 on a desktop window. -/
theorem determineAvatarFidelity_no_webgl_witness :
    scenarioCaps.hasWebGL = false
      ∧ determineAvatarFidelity desktopWindow scenarioCaps = "text_only" :=
  ⟨rfl, determineAvatarFidelity_no_webgl desktopWindow scenarioCaps rfl⟩

/-- C3. When the connection is present with saveData set, the content quality
is minimal: both for the device class and score the function computes itself
and for every other device class string and score fed to its body. -/
theorem determineContentQuality_saveData (w : Window) (c : Capabilities) (conn : Connection)
    (hc : c.connection = some conn) (hs : conn.saveData = true) :
    determineContentQuality w c = CONTENT_QUALITY.MINIMAL
      ∧ ∀ (deviceType : String) (performanceScore : ℚ),
          contentQualityFrom deviceType performanceScore c = CONTENT_QUALITY.MINIMAL := by
  have key : ∀ (deviceType : String) (performanceScore : ℚ),
      contentQualityFrom deviceType performanceScore c = CONTENT_QUALITY.MINIMAL := by
    intro d s
    simp [contentQualityFrom, hc, hs]
  exact ⟨key _ _, key⟩

/-- Witness for C3: a desktop on 4g with save-data on. -/
theorem determineContentQuality_saveData_witness :
    determineContentQuality desktopWindow
        { scenarioCaps with connection := some { effectiveType := some "4g", saveData := true } }
      = "minimal" :=
  (determineContentQuality_saveData desktopWindow
    { scenarioCaps with connection := some { effectiveType := some "4g", saveData := true } }
    { effectiveType := some "4g", saveData := true } rfl rfl).1

/-- C4. When the connection is absent or its effectiveType is 4g, 3g or 2g, the
score is the sum of five contributions: min(cpuCores*4, 25), the screen bucket
of the effective pixel count, 25 for WebGL, the connection term `k` (20, 15, 5
or 10 when absent) and min(memory, 10) when memory is present, 5 when absent.
A memory field holding 0 is outside the data model (the source treats it as
absent), so a present memory is taken to be non-zero. -/
theorem calculatePerformanceScore_formula (c : Capabilities) (k : ℚ)
    (hconn : connectionTermIs c.connection k) (hmem : ∀ m, c.memory = some m → m ≠ 0) :
    calculatePerformanceScore c =
      min ((c.cpuCores : ℚ) * 4) 25
        + screenBucket ((c.screenWidth : ℚ) * (c.screenHeight : ℚ) * c.pixelRatio)
        + (if c.hasWebGL then 25 else 0)
        + k
        + memoryTermSpec c.memory := by
  rw [calculatePerformanceScore_sum, connectionTerm_of_spec c.connection k hconn,
    memoryTerm_of_spec c.memory hmem]

/-- Witness for C4: no connection information, 4 GB of memory. -/
theorem calculatePerformanceScore_formula_witness :
    calculatePerformanceScore caps70 =
      min (((4 : Int) : ℚ) * 4) 25
        + screenBucket (((1920 : Int) : ℚ) * ((1080 : Int) : ℚ) * 1)
        + (if true then 25 else 0) + 10 + memoryTermSpec (some 4) :=
  calculatePerformanceScore_formula caps70 10 (Or.inl ⟨rfl, rfl⟩)
    (by intro m hm; simp [caps70] at hm; rw [← hm]; norm_num)

/-- C5, evaluation of the source: with effectiveType slow-2g the connection
adds nothing to the score, so scenario 1 scores 36 on slow-2g and 41 on 2g. -/
theorem calculatePerformanceScore_slow2g :
    calculatePerformanceScore (withEffectiveType scenarioCaps "slow-2g") = 36
      ∧ calculatePerformanceScore (withEffectiveType scenarioCaps "2g") = 41 := by
  constructor <;>
    simp +decide [calculatePerformanceScore_sum, withEffectiveType, scenarioCaps, screenBucket,
      connectionTerm, memoryTerm] <;>
    norm_num

/-- C6. The classifier of the source equals the two-stage rule of the
specification on (innerWidth, innerHeight, user agent matches the mobile
pattern). With a mobile user agent the result is mobile below a minimum side
of 768 and tablet from 768 on, never laptop or desktop; with any other user
agent it is tablet below width 1024, laptop from 1024 to 1439, desktop from
1440 on, never mobile. -/
theorem detectDeviceType_two_stage (w : Window) :
    detectDeviceType w = classify w.innerWidth w.innerHeight (isMobileUserAgent w.userAgent)
      ∧ (isMobileUserAgent w.userAgent = true →
          (min w.innerWidth w.innerHeight < 768 → detectDeviceType w = DEVICE_TYPES.MOBILE)
          ∧ (768 ≤ min w.innerWidth w.innerHeight → detectDeviceType w = DEVICE_TYPES.TABLET)
          ∧ detectDeviceType w ≠ DEVICE_TYPES.LAPTOP
          ∧ detectDeviceType w ≠ DEVICE_TYPES.DESKTOP)
      ∧ (isMobileUserAgent w.userAgent = false →
          (w.innerWidth < 1024 → detectDeviceType w = DEVICE_TYPES.TABLET)
          ∧ (1024 ≤ w.innerWidth → w.innerWidth < 1440 →
              detectDeviceType w = DEVICE_TYPES.LAPTOP)
          ∧ (1440 ≤ w.innerWidth → detectDeviceType w = DEVICE_TYPES.DESKTOP)
          ∧ detectDeviceType w ≠ DEVICE_TYPES.MOBILE) := by
  refine ⟨?_, ?_, ?_⟩
  · cases hm : isMobileUserAgent w.userAgent
    · simp only [detectDeviceType, classify, hm, Bool.false_eq_true, if_false,
        DEVICE_TYPES.TABLET, DEVICE_TYPES.LAPTOP, DEVICE_TYPES.DESKTOP]
      split_ifs <;> first | rfl | omega
    · simp only [detectDeviceType, classify, hm, if_true, DEVICE_TYPES.MOBILE,
        DEVICE_TYPES.TABLET]
  · intro hm
    have e : detectDeviceType w =
        if min w.innerWidth w.innerHeight < 768 then DEVICE_TYPES.MOBILE
        else DEVICE_TYPES.TABLET := by
      simp only [detectDeviceType, hm, if_true]
    rw [e]
    refine ⟨fun h => if_pos h, fun h => if_neg (not_lt.mpr h), ?_, ?_⟩ <;>
      split_ifs <;> decide
  · intro hm
    have e : detectDeviceType w =
        if w.innerWidth < 1024 then DEVICE_TYPES.TABLET
        else if w.innerWidth ≥ 1024 ∧ w.innerWidth < 1440 then DEVICE_TYPES.LAPTOP
        else DEVICE_TYPES.DESKTOP := by
      simp only [detectDeviceType, hm, Bool.false_eq_true, if_false]
    rw [e]
    refine ⟨fun h => if_pos h, fun h1 h2 => ?_, fun h => ?_, ?_⟩
    · rw [if_neg (not_lt.mpr h1), if_pos ⟨h1, h2⟩]
    · rw [if_neg (by omega), if_neg (by omega)]
    · split_ifs <;> decide

/-- Witness for C6: width 1024 is laptop, width 1440 is desktop, and a minimum
side of 768 with a mobile user agent is tablet. -/
theorem detectDeviceType_two_stage_witness :
    detectDeviceType window1024 = "laptop"
      ∧ detectDeviceType window1440 = "desktop"
      ∧ detectDeviceType tabletWindow = "tablet" :=
  ⟨((detectDeviceType_two_stage window1024).2.2 (by decide)).2.1 (by decide) (by decide),
   ((detectDeviceType_two_stage window1440).2.2 (by decide)).2.2.1 (by decide),
   ((detectDeviceType_two_stage tabletWindow).2.1 (by decide)).2.1 (by decide)⟩

/-- C7. With WebGL, the avatar tier is the ordered first-match rule on the
device class d and the score s: 3d_full when d is desktop and s > 70; else 2.5d
when d is desktop or laptop and s > 40; else text_only when d is mobile and
s < 30; else 2d. A tablet always gets 2d; on desktop a score of exactly 70
gives 2.5d and a score of exactly 40 gives 2d. -/
theorem determineAvatarFidelity_webgl (w : Window) (c : Capabilities)
    (h : c.hasWebGL = true) :
    determineAvatarFidelity w c =
        (if detectDeviceType w = "desktop" ∧ calculatePerformanceScore c > 70 then "3d_full"
         else if (detectDeviceType w = "desktop" ∨ detectDeviceType w = "laptop")
             ∧ calculatePerformanceScore c > 40 then "2.5d"
         else if detectDeviceType w = "mobile" ∧ calculatePerformanceScore c < 30 then
           "text_only"
         else "2d")
      ∧ (detectDeviceType w = "tablet" → determineAvatarFidelity w c = AVATAR_FIDELITY.LOW)
      ∧ (detectDeviceType w = "desktop" → calculatePerformanceScore c = 70 →
          determineAvatarFidelity w c = AVATAR_FIDELITY.MEDIUM)
      ∧ (detectDeviceType w = "desktop" → calculatePerformanceScore c = 40 →
          determineAvatarFidelity w c = AVATAR_FIDELITY.LOW) := by
  have e : determineAvatarFidelity w c =
      avatarFidelityChain (detectDeviceType w) (calculatePerformanceScore c) := by
    simp [determineAvatarFidelity, h]
  refine ⟨?_, ?_, ?_, ?_⟩
  · rw [e]; rfl
  · intro hd
    rw [e, hd]
    simp +decide [avatarFidelityChain, DEVICE_TYPES.DESKTOP, DEVICE_TYPES.LAPTOP,
      DEVICE_TYPES.MOBILE]
  · intro hd hs
    rw [e, hd, hs]
    simp +decide [avatarFidelityChain, DEVICE_TYPES.DESKTOP, DEVICE_TYPES.LAPTOP,
      DEVICE_TYPES.MOBILE]
  · intro hd hs
    rw [e, hd, hs]
    simp +decide [avatarFidelityChain, DEVICE_TYPES.DESKTOP, DEVICE_TYPES.LAPTOP,
      DEVICE_TYPES.MOBILE]

theorem caps70_score : calculatePerformanceScore caps70 = 70 := by
  norm_num [calculatePerformanceScore, caps70]

theorem caps40_score : calculatePerformanceScore caps40 = 40 := by
  simp +decide [calculatePerformanceScore_sum, caps40, screenBucket, connectionTerm, memoryTerm]
  norm_num

theorem caps88_score : calculatePerformanceScore caps88 = 88 := by
  norm_num [calculatePerformanceScore, caps88]

/-- Witness for C7: a tablet scoring 88 gets 2d; a desktop scoring exactly 70
gets 2.5d; a desktop scoring exactly 40 gets 2d. -/
theorem determineAvatarFidelity_webgl_witness :
    determineAvatarFidelity tabletWindow caps88 = "2d"
      ∧ determineAvatarFidelity desktopWindow caps70 = "2.5d"
      ∧ determineAvatarFidelity window1440 caps40 = "2d" :=
  ⟨(determineAvatarFidelity_webgl tabletWindow caps88 rfl).2.1 (by decide),
   (determineAvatarFidelity_webgl desktopWindow caps70 rfl).2.2.1 (by decide) caps70_score,
   (determineAvatarFidelity_webgl window1440 caps40 rfl).2.2.2 (by decide) caps40_score⟩

/-- The function is its body at the device class and score it computes. -/
theorem determineContentQuality_eq (w : Window) (c : Capabilities) :
    determineContentQuality w c =
      contentQualityFrom (detectDeviceType w) (calculatePerformanceScore c) c := rfl

/-- With a present connection whose save-data flag is off, the body is the
switch on the effective type. -/
theorem contentQualityFrom_connection (d : String) (s : ℚ) (c : Capabilities)
    (conn : Connection) (hc : c.connection = some conn) (hs : conn.saveData = false) :
    contentQualityFrom d s c = contentQualityByConnection d s conn := by
  simp [contentQualityFrom, hc, hs]

/-- Without connection information the body is the switch on the device class. -/
theorem contentQualityFrom_no_connection (d : String) (s : ℚ) (c : Capabilities)
    (hc : c.connection = none) :
    contentQualityFrom d s c = contentQualityByDevice d := by
  simp [contentQualityFrom, hc]

/-- C8. With a present connection, save-data off: on 4g the quality is ultra
when the device class is desktop and the score exceeds 70, otherwise high when
the score exceeds 50, otherwise medium, so a non-desktop device never gets
ultra; on 3g it is medium when the score exceeds 60 and low otherwise,
whatever the window (device class). -/
theorem determineContentQuality_4g_3g (w : Window) (c : Capabilities) (conn : Connection)
    (hc : c.connection = some conn) (hs : conn.saveData = false) :
    (conn.effectiveType = some "4g" →
        determineContentQuality w c =
            (if detectDeviceType w = "desktop" ∧ calculatePerformanceScore c > 70 then "ultra"
             else if calculatePerformanceScore c > 50 then "high"
             else "medium")
          ∧ (detectDeviceType w ≠ "desktop" →
              determineContentQuality w c ≠ CONTENT_QUALITY.ULTRA))
      ∧ (conn.effectiveType = some "3g" →
          ∀ w2 : Window,
            determineContentQuality w2 c =
              (if calculatePerformanceScore c > 60 then "medium" else "low")) := by
  constructor
  · intro h4
    have e : determineContentQuality w c =
        (if detectDeviceType w = "desktop" ∧ calculatePerformanceScore c > 70 then "ultra"
         else if calculatePerformanceScore c > 50 then "high"
         else "medium") := by
      rw [determineContentQuality_eq, contentQualityFrom_connection _ _ c conn hc hs]
      simp only [contentQualityByConnection, h4, if_true]
      rfl
    refine ⟨e, fun hd => ?_⟩
    rw [e]
    have hn : ¬ (detectDeviceType w = "desktop" ∧ calculatePerformanceScore c > 70) :=
      fun hh => hd hh.1
    rw [if_neg hn]
    split_ifs <;> decide
  · intro h3 w2
    rw [determineContentQuality_eq, contentQualityFrom_connection _ _ c conn hc hs]
    simp +decide only [contentQualityByConnection, h3, if_true, if_false, Option.some.injEq]
    rfl

/-- Witness for C8: a desktop on 4g scoring 88 gets ultra, the tablet with the
same capabilities gets high, and on 3g (score 83) both get medium. -/
theorem determineContentQuality_4g_3g_witness :
    determineContentQuality desktopWindow caps88 = "ultra"
      ∧ determineContentQuality tabletWindow caps88 ≠ "ultra"
      ∧ determineContentQuality tabletWindow (withEffectiveType caps88 "3g") = "medium" := by
  have h := determineContentQuality_4g_3g desktopWindow caps88
    { effectiveType := some "4g", saveData := false } rfl rfl
  have ht := determineContentQuality_4g_3g tabletWindow caps88
    { effectiveType := some "4g", saveData := false } rfl rfl
  have h3 := determineContentQuality_4g_3g desktopWindow (withEffectiveType caps88 "3g")
    { effectiveType := some "3g", saveData := false } rfl rfl
  have s3 : calculatePerformanceScore (withEffectiveType caps88 "3g") = 83 := by
    simp +decide [calculatePerformanceScore_sum, withEffectiveType, caps88, screenBucket,
      connectionTerm, memoryTerm]
    norm_num
  refine ⟨?_, (ht.1 rfl).2 (by decide), ?_⟩
  · rw [(h.1 rfl).1, desktopWindow_type, caps88_score]; norm_num
  · rw [h3.2 rfl tabletWindow, s3]; norm_num

/-- C9. With a present connection, save-data off: effectiveType 2g or slow-2g
gives minimal, and any effectiveType other than 4g, 3g, 2g, slow-2g (a missing
one included) gives medium. In both cases the result is the same for every
window, and the body returns it for every device class string and score;
the function is total, so no error is raised. -/
theorem determineContentQuality_slow_or_unknown (w : Window) (c : Capabilities)
    (conn : Connection) (hc : c.connection = some conn) (hs : conn.saveData = false) :
    ((conn.effectiveType = some "2g" ∨ conn.effectiveType = some "slow-2g") →
        determineContentQuality w c = CONTENT_QUALITY.MINIMAL
          ∧ ∀ (deviceType : String) (performanceScore : ℚ),
              contentQualityFrom deviceType performanceScore c = CONTENT_QUALITY.MINIMAL)
      ∧ ((conn.effectiveType ≠ some "4g" ∧ conn.effectiveType ≠ some "3g"
            ∧ conn.effectiveType ≠ some "2g" ∧ conn.effectiveType ≠ some "slow-2g") →
          determineContentQuality w c = CONTENT_QUALITY.MEDIUM
            ∧ ∀ (deviceType : String) (performanceScore : ℚ),
                contentQualityFrom deviceType performanceScore c = CONTENT_QUALITY.MEDIUM) := by
  constructor
  · intro h2
    have key : ∀ (d : String) (s : ℚ), contentQualityFrom d s c = CONTENT_QUALITY.MINIMAL := by
      intro d s
      rw [contentQualityFrom_connection d s c conn hc hs]
      rcases h2 with h2 | h2 <;>
        simp +decide [contentQualityByConnection, h2]
    exact ⟨key _ _, key⟩
  · rintro ⟨n4, n3, n2, ns⟩
    have key : ∀ (d : String) (s : ℚ), contentQualityFrom d s c = CONTENT_QUALITY.MEDIUM := by
      intro d s
      rw [contentQualityFrom_connection d s c conn hc hs]
      simp [contentQualityByConnection, n4, n3, n2, ns]
    exact ⟨key _ _, key⟩

/-- Witness for C9: on a phone, slow-2g gives minimal, while an unknown
effectiveType (5g) and a missing effectiveType give medium. -/
theorem determineContentQuality_slow_or_unknown_witness :
    determineContentQuality phoneWindow (withEffectiveType caps88 "slow-2g") = "minimal"
      ∧ determineContentQuality phoneWindow (withEffectiveType caps88 "5g") = "medium"
      ∧ determineContentQuality phoneWindow
          { caps88 with connection := some { effectiveType := none, saveData := false } }
        = "medium" :=
  ⟨((determineContentQuality_slow_or_unknown phoneWindow (withEffectiveType caps88 "slow-2g")
      { effectiveType := some "slow-2g", saveData := false } rfl rfl).1 (Or.inr rfl)).1,
   ((determineContentQuality_slow_or_unknown phoneWindow (withEffectiveType caps88 "5g")
      { effectiveType := some "5g", saveData := false } rfl rfl).2
      ⟨by decide, by decide, by decide, by decide⟩).1,
   ((determineContentQuality_slow_or_unknown phoneWindow
      { caps88 with connection := some { effectiveType := none, saveData := false } }
      { effectiveType := none, saveData := false } rfl rfl).2
      ⟨by decide, by decide, by decide, by decide⟩).1⟩

/-- C10. Without connection information the content quality depends only on
the device class: high for desktop, medium for laptop, medium for tablet, low
for mobile, and medium for any other device class string; it is never ultra
and never minimal. The function is total, so it never raises. -/
theorem determineContentQuality_no_connection (w : Window) (c : Capabilities)
    (hc : c.connection = none) :
    (∀ (d : String) (s : ℚ),
        (d = "desktop" → contentQualityFrom d s c = CONTENT_QUALITY.HIGH)
        ∧ (d = "laptop" → contentQualityFrom d s c = CONTENT_QUALITY.MEDIUM)
        ∧ (d = "tablet" → contentQualityFrom d s c = CONTENT_QUALITY.MEDIUM)
        ∧ (d = "mobile" → contentQualityFrom d s c = CONTENT_QUALITY.LOW)
        ∧ (d ≠ "desktop" → d ≠ "laptop" → d ≠ "tablet" → d ≠ "mobile" →
            contentQualityFrom d s c = CONTENT_QUALITY.MEDIUM)
        ∧ contentQualityFrom d s c ≠ CONTENT_QUALITY.ULTRA
        ∧ contentQualityFrom d s c ≠ CONTENT_QUALITY.MINIMAL)
      ∧ determineContentQuality w c =
          (if detectDeviceType w = "desktop" then "high"
           else if detectDeviceType w = "mobile" then "low"
           else "medium")
      ∧ (∀ c2 : Capabilities, c2.connection = none →
          determineContentQuality w c2 = determineContentQuality w c) := by
  have key : ∀ (d : String) (s : ℚ) (c1 : Capabilities), c1.connection = none →
      contentQualityFrom d s c1 = contentQualityByDevice d :=
    fun d s c1 h1 => contentQualityFrom_no_connection d s c1 h1
  refine ⟨fun d s => ?_, ?_, fun c2 h2 => ?_⟩
  · rw [key d s c hc]
    refine ⟨?_, ?_, ?_, ?_, ?_, ?_, ?_⟩
    · rintro rfl; decide
    · rintro rfl; decide
    · rintro rfl; decide
    · rintro rfl; decide
    · intro h1 h2 h3 h4
      simp [contentQualityByDevice, DEVICE_TYPES.DESKTOP, DEVICE_TYPES.LAPTOP,
        DEVICE_TYPES.TABLET, DEVICE_TYPES.MOBILE, h1, h2, h3, h4]
    · unfold contentQualityByDevice; split_ifs <;> decide
    · unfold contentQualityByDevice; split_ifs <;> decide
  · rw [determineContentQuality_eq, key _ _ c hc]
    simp only [contentQualityByDevice, DEVICE_TYPES.DESKTOP, DEVICE_TYPES.LAPTOP,
      DEVICE_TYPES.TABLET, DEVICE_TYPES.MOBILE, CONTENT_QUALITY.HIGH, CONTENT_QUALITY.MEDIUM,
      CONTENT_QUALITY.LOW]
    split_ifs <;> first | rfl | simp_all
  · rw [determineContentQuality_eq, determineContentQuality_eq, key _ _ c hc, key _ _ c2 h2]

/-- Witness for C10: without connection information a desktop gets high, a
phone gets low, and an unrecognized device class gets medium. -/
theorem determineContentQuality_no_connection_witness :
    determineContentQuality desktopWindow caps70 = "high"
      ∧ determineContentQuality phoneWindow caps70 = "low"
      ∧ contentQualityFrom "watch" 70 caps70 = "medium" := by
  have hd := (determineContentQuality_no_connection desktopWindow caps70 rfl).2.1
  have hp := (determineContentQuality_no_connection phoneWindow caps70 rfl).2.1
  have hu := ((determineContentQuality_no_connection desktopWindow caps70 rfl).1 "watch" 70).2.2.2.2.1
    (by decide) (by decide) (by decide) (by decide)
  refine ⟨?_, ?_, hu⟩
  · rw [hd, desktopWindow_type]; decide
  · rw [hp, phoneWindow_type]; decide

/-! ## Lemmas on the content adapter -/

/-- The adapter replaces the content by the image of the original content
under the callback of the last block whose condition holds. -/
theorem adaptContentForDevice_eq_map (m : Module) (d : DeviceInfo) :
    adaptContentForDevice m d = { m with content := m.content.map (adaptItem d) } := by
  have hf : adaptItem d =
      if d.capabilities.networkInfo.bandwidth = "low" then compressItem
      else if !d.capabilities.hasWebGL then replaceWebGLItem
      else if d.type = "mobile" ∨ d.capabilities.processingPower = "low" then simplifyItem
      else id := by
    funext item
    unfold adaptItem
    split_ifs <;> rfl
  rw [hf]
  unfold adaptContentForDevice
  by_cases h3 : d.capabilities.networkInfo.bandwidth = "low" <;>
    by_cases h1 : d.type = "mobile" ∨ d.capabilities.processingPower = "low" <;>
    cases h2 : d.capabilities.hasWebGL <;>
    simp [h3, h2, h1]

/-- Position by position, the output item is the image of the input item. -/
theorem adaptContentForDevice_getElem? (m : Module) (d : DeviceInfo) (i : Nat) :
    (adaptContentForDevice m d).content[i]? = (m.content[i]?).map (adaptItem d) := by
  rw [adaptContentForDevice_eq_map]
  exact List.getElem?_map (adaptItem d) m.content i

theorem compressItem_idem (x : ContentItem) : compressItem (compressItem x) = compressItem x := by
  unfold compressItem
  split_ifs <;> simp_all

theorem replaceWebGLItem_idem (x : ContentItem) :
    replaceWebGLItem (replaceWebGLItem x) = replaceWebGLItem x := by
  unfold replaceWebGLItem
  split_ifs <;> simp_all

theorem simplifyItem_idem (x : ContentItem) : simplifyItem (simplifyItem x) = simplifyItem x := by
  unfold simplifyItem
  split_ifs <;> simp_all

theorem adaptItem_idem (d : DeviceInfo) (x : ContentItem) :
    adaptItem d (adaptItem d x) = adaptItem d x := by
  unfold adaptItem
  split_ifs
  · exact compressItem_idem x
  · exact replaceWebGLItem_idem x
  · exact simplifyItem_idem x
  · rfl

/-! ## Claims on scenario 1, the content adapter and the interaction modes -/

/-- C11. Scenario 1: on a 1920 by 1080 window with a non-mobile user agent the
device class is desktop; the capabilities without WebGL, with 4 cores, 1920 by
1080 at pixel ratio 1, a 4g connection and no memory hint score
16 + 15 + 0 + 20 + 5 = 56; the avatar tier is text_only and the content
quality is high. -/
theorem scenario1 :
    detectDeviceType desktopWindow = "desktop"
      ∧ calculatePerformanceScore scenarioCaps = 56
      ∧ min (((scenarioCaps.cpuCores : Int) : ℚ) * 4) 25 = 16
      ∧ screenBucket ((scenarioCaps.screenWidth : ℚ) * (scenarioCaps.screenHeight : ℚ)
          * scenarioCaps.pixelRatio) = 15
      ∧ connectionTerm scenarioCaps.connection = 20
      ∧ memoryTerm scenarioCaps.memory = 5
      ∧ determineAvatarFidelity desktopWindow scenarioCaps = "text_only"
      ∧ determineContentQuality desktopWindow scenarioCaps = "high" := by
  refine ⟨desktopWindow_type, scenarioCaps_score, ?_, ?_, ?_, ?_, ?_, ?_⟩
  · norm_num [scenarioCaps]
  · norm_num [scenarioCaps, screenBucket]
  · simp [scenarioCaps, connectionTerm]
  · simp [scenarioCaps, memoryTerm]
  · simp [determineAvatarFidelity, scenarioCaps, AVATAR_FIDELITY.TEXT]
  · rw [determineContentQuality_eq, desktopWindow_type, scenarioCaps_score]
    simp +decide [contentQualityFrom, contentQualityByConnection, scenarioCaps,
      CONTENT_QUALITY.HIGH]

/-- C12, evaluation of the source: a 3D model with a declared fallback that
does not need WebGL, on a phone. With WebGL and a bandwidth that is not low the
item becomes a simplified image of its fallback; when the bandwidth is low, or
when the phone has no WebGL, a later block assigns the content again from the
original items and the 3D model comes out unchanged. -/
theorem adaptContentForDevice_mobile_overwritten :
    (adaptContentForDevice (moduleOf [plainModelItem]) (phoneInfo "high")).content
        = [{ plainModelItem with type := "simplified-image", content := some "cube.png" }]
      ∧ (adaptContentForDevice (moduleOf [plainModelItem]) (phoneInfo "low")).content
        = [plainModelItem]
      ∧ (adaptContentForDevice (moduleOf [plainModelItem])
          { type := "mobile",
            capabilities :=
              { processingPower := "high", hasWebGL := false,
                networkInfo := { bandwidth := "high" } } }).content
        = [plainModelItem] := by
  decide

/-- C13. Without WebGL and with a bandwidth that is not classified low, an item
that requires WebGL comes out as a video whose content is the fallback content
of the item, all other fields kept; the device type, the processing power and
the type of the item play no part, so this holds for a 3D model on a phone
too. -/
theorem adaptContentForDevice_no_webgl (m : Module) (d : DeviceInfo) (i : Nat)
    (item : ContentItem) (fallback : String)
    (hgl : d.capabilities.hasWebGL = false)
    (hbw : d.capabilities.networkInfo.bandwidth ≠ "low")
    (hi : m.content[i]? = some item)
    (hr : item.requiresWebGL = true)
    (hf : item.fallbackContent = some fallback) :
    (adaptContentForDevice m d).content[i]?
        = some { item with type := "video", content := some fallback } := by
  rw [adaptContentForDevice_getElem?, hi]
  simp [adaptItem, replaceWebGLItem, hgl, hbw, hr, hf]

/-- Witness for C13: a 3D model that needs WebGL, on a phone without WebGL. -/
theorem adaptContentForDevice_no_webgl_witness :
    (adaptContentForDevice (moduleOf [textItem, modelItem])
        { type := "mobile",
          capabilities :=
            { processingPower := "low", hasWebGL := false,
              networkInfo := { bandwidth := "medium" } } }).content[1]?
      = some { modelItem with type := "video", content := some "heart.mp4" } :=
  adaptContentForDevice_no_webgl (moduleOf [textItem, modelItem]) _ 1 modelItem "heart.mp4"
    rfl (by decide) rfl rfl rfl

/-- C14, evaluation of the source: without WebGL and on low bandwidth, a 3D
model that requires WebGL and declares a fallback comes out unchanged, and a
video that requires WebGL is compressed but keeps its own content, not the
fallback: the third block maps the original items, not the result of the
second. -/
theorem adaptContentForDevice_no_webgl_low_bandwidth :
    (adaptContentForDevice (moduleOf [modelItem]) (noWebGLInfo "low")).content = [modelItem]
      ∧ (adaptContentForDevice
          (moduleOf [webglVideoItem]) (noWebGLInfo "low")).content
        = [{ webglVideoItem with quality := some "low", size := some "compressed" }] := by
  decide

/-- C15. Adapting an adapted module again with the same device context gives
the module obtained by adapting once. -/
theorem adaptContentForDevice_idempotent (m : Module) (d : DeviceInfo) :
    adaptContentForDevice (adaptContentForDevice m d) d = adaptContentForDevice m d := by
  rw [adaptContentForDevice_eq_map (adaptContentForDevice m d) d,
    adaptContentForDevice_eq_map m d]
  simp only [List.map_map]
  congr 1
  apply List.map_congr_left
  intro x _
  exact adaptItem_idem d x

/-- C16, evaluation of the source: on a phone with WebGL and a bandwidth that
is not low, a 3D model without fallback does not pass through unchanged: it
comes out as a simplified image without content. -/
theorem adaptContentForDevice_missing_fallback_changed :
    (adaptContentForDevice (moduleOf [bareModelItem]) (phoneInfo "high")).content[0]?
        = some { bareModelItem with type := "simplified-image", content := none }
      ∧ (adaptContentForDevice (moduleOf [bareModelItem]) (phoneInfo "high")).content[0]?
        ≠ some bareModelItem := by
  decide

/-- C16, amended. On a mobile device with WebGL and a bandwidth that is not
low, a 3D model without fallback content comes out with type simplified-image
and no content, its other fields kept; the pass does not fail, the content
keeps its length, and the other positions of the output are the same whatever
item stands at that position. -/
theorem adaptContentForDevice_missing_fallback (m : Module) (d : DeviceInfo) (i : Nat)
    (item : ContentItem)
    (hty : d.type = "mobile")
    (hgl : d.capabilities.hasWebGL = true)
    (hbw : d.capabilities.networkInfo.bandwidth ≠ "low")
    (hi : m.content[i]? = some item)
    (ht : item.type = "3d-model")
    (hf : item.fallbackContent = none) :
    (adaptContentForDevice m d).content[i]?
        = some { item with type := "simplified-image", content := none }
      ∧ (adaptContentForDevice m d).content.length = m.content.length
      ∧ ∀ (j : Nat) (x : ContentItem), j ≠ i →
          (adaptContentForDevice { m with content := m.content.set i x } d).content[j]?
            = (adaptContentForDevice m d).content[j]? := by
  refine ⟨?_, ?_, ?_⟩
  · rw [adaptContentForDevice_getElem?, hi]
    simp [adaptItem, simplifyItem, hty, hgl, hbw, ht, hf]
  · rw [adaptContentForDevice_eq_map]
    simp
  · intro j x hj
    rw [adaptContentForDevice_getElem?, adaptContentForDevice_getElem?]
    simp only []
    rw [List.getElem?_set_ne (Ne.symm hj)]

/-- Witness for C16 amended: a text item, then a 3D model without fallback. -/
theorem adaptContentForDevice_missing_fallback_witness :
    (adaptContentForDevice (moduleOf [textItem, bareModelItem]) (phoneInfo "high")).content[1]?
      = some { bareModelItem with type := "simplified-image", content := none } :=
  (adaptContentForDevice_missing_fallback (moduleOf [textItem, bareModelItem])
    (phoneInfo "high") 1 bareModelItem rfl rfl (by decide) rfl rfl rfl).1

/-- C17. On low bandwidth a video or high-resolution image comes out with
quality low and size compressed, every other field (type and content
included) as in the input; this holds for every device type, processing power
and WebGL support, and whether or not the item requires WebGL. -/
theorem adaptContentForDevice_low_bandwidth (m : Module) (d : DeviceInfo) (i : Nat)
    (item : ContentItem)
    (hbw : d.capabilities.networkInfo.bandwidth = "low")
    (hi : m.content[i]? = some item)
    (ht : item.type = "video" ∨ item.type = "high-res-image") :
    (adaptContentForDevice m d).content[i]?
      = some { item with quality := some "low", size := some "compressed" } := by
  rw [adaptContentForDevice_getElem?, hi]
  simp [adaptItem, compressItem, hbw, ht]

/-- Witness for C17: a video on a phone with low bandwidth. -/
theorem adaptContentForDevice_low_bandwidth_witness :
    (adaptContentForDevice (moduleOf [videoItem]) (phoneInfo "low")).content[0]?
      = some { videoItem with quality := some "low", size := some "compressed" } :=
  adaptContentForDevice_low_bandwidth (moduleOf [videoItem]) (phoneInfo "low") 0 videoItem
    rfl rfl (Or.inl rfl)

/-- C18. An item that matches no rule (its type is none of 3d-model,
complex-simulation, video, high-res-image and it does not require WebGL) comes
out equal to the input item, for every device context; the output content has
the length of the input and corresponds to it position by position. -/
theorem adaptContentForDevice_no_rule (m : Module) (d : DeviceInfo) (i : Nat)
    (item : ContentItem)
    (hi : m.content[i]? = some item)
    (h1 : item.type ≠ "3d-model") (h2 : item.type ≠ "complex-simulation")
    (h3 : item.type ≠ "video") (h4 : item.type ≠ "high-res-image")
    (hr : item.requiresWebGL = false) :
    (adaptContentForDevice m d).content[i]? = some item
      ∧ (adaptContentForDevice m d).content.length = m.content.length
      ∧ ∀ j : Nat,
          (adaptContentForDevice m d).content[j]? = (m.content[j]?).map (adaptItem d) := by
  refine ⟨?_, ?_, fun j => adaptContentForDevice_getElem? m d j⟩
  · rw [adaptContentForDevice_getElem?, hi]
    have e : adaptItem d item = item := by
      unfold adaptItem compressItem replaceWebGLItem simplifyItem
      simp [h1, h2, h3, h4, hr]
    simp [e]
  · rw [adaptContentForDevice_eq_map]
    simp

/-- Witness for C18: a text item between two other items, on a phone with low
bandwidth. -/
theorem adaptContentForDevice_no_rule_witness :
    (adaptContentForDevice (moduleOf [videoItem, textItem, modelItem])
        (phoneInfo "low")).content[1]? = some textItem :=
  (adaptContentForDevice_no_rule (moduleOf [videoItem, textItem, modelItem]) (phoneInfo "low") 1
    textItem rfl (by decide) (by decide) (by decide) (by decide) rfl).1

/-- C19. The interaction modes are the stated derivation, for every
capabilities value and every device class string: touch is touchSupport;
keyboard and mouse hold exactly when the device class is neither mobile nor
tablet; stylus holds exactly when it is tablet; voice is hasMicrophone;
gesture is hasCamera; ar is `hasARSupport && hasCamera`; motion is
hasGyroscope. Hence keyboard and mouse are equal, stylus and keyboard are
never both true, and a truthy ar implies a truthy gesture. The function itself
applies this to the device class of the window. -/
theorem getInteractionModes_derivation (w : Window) (d : String)
    (c : InteractionCapabilities) :
    getInteractionModes w c = interactionModesFrom (detectDeviceType w) c
      ∧ (interactionModesFrom d c).touch = c.touchSupport
      ∧ ((interactionModesFrom d c).keyboard = true ↔ (d ≠ "mobile" ∧ d ≠ "tablet"))
      ∧ ((interactionModesFrom d c).mouse = true ↔ (d ≠ "mobile" ∧ d ≠ "tablet"))
      ∧ ((interactionModesFrom d c).stylus = true ↔ d = "tablet")
      ∧ (interactionModesFrom d c).voice = c.hasMicrophone
      ∧ (interactionModesFrom d c).gesture = c.hasCamera
      ∧ (interactionModesFrom d c).ar = jsAnd c.hasARSupport c.hasCamera
      ∧ (interactionModesFrom d c).ar.truthy = (c.hasARSupport && c.hasCamera.truthy)
      ∧ (interactionModesFrom d c).motion = c.hasGyroscope
      ∧ (interactionModesFrom d c).keyboard = (interactionModesFrom d c).mouse
      ∧ ¬ ((interactionModesFrom d c).stylus = true
            ∧ (interactionModesFrom d c).keyboard = true)
      ∧ ((interactionModesFrom d c).ar.truthy = true →
          (interactionModesFrom d c).gesture.truthy = true)
      ∧ ((interactionModesFrom d c).ar = Flag.bool true →
          (interactionModesFrom d c).gesture = Flag.bool true) := by
  have har : (jsAnd c.hasARSupport c.hasCamera).truthy
      = (c.hasARSupport && c.hasCamera.truthy) := by
    cases h : c.hasARSupport <;> simp [jsAnd, Flag.truthy]
  refine ⟨rfl, rfl, ?_, ?_, ?_, rfl, rfl, rfl, har, rfl, rfl, ?_, ?_, ?_⟩
  · simp [interactionModesFrom, DEVICE_TYPES.MOBILE, DEVICE_TYPES.TABLET]
  · simp [interactionModesFrom, DEVICE_TYPES.MOBILE, DEVICE_TYPES.TABLET]
  · simp [interactionModesFrom, DEVICE_TYPES.TABLET]
  · simp only [interactionModesFrom, DEVICE_TYPES.MOBILE, DEVICE_TYPES.TABLET,
      decide_eq_true_eq]
    rintro ⟨h1, _, h2⟩
    exact h2 h1
  · intro h
    have h2 : (jsAnd c.hasARSupport c.hasCamera).truthy = true := h
    rw [har] at h2
    simp only [Bool.and_eq_true] at h2
    exact h2.2
  · intro h
    have h2 : jsAnd c.hasARSupport c.hasCamera = Flag.bool true := h
    show c.hasCamera = Flag.bool true
    cases h3 : c.hasARSupport
    · simp [jsAnd, h3] at h2
    · simpa [jsAnd, h3] using h2

/-- Witness for C19: a tablet with a camera whose enumeration is pending and AR
support has a truthy ar and a truthy gesture, a stylus and no keyboard. -/
theorem getInteractionModes_derivation_witness :
    (getInteractionModes tabletWindow
        { touchSupport := true, hasMicrophone := Flag.bool false,
          hasCamera := Flag.promise true, hasGyroscope := true, hasARSupport := true }).stylus
        = true
      ∧ (interactionModesFrom "tablet"
          { touchSupport := true, hasMicrophone := Flag.bool false,
            hasCamera := Flag.promise true, hasGyroscope := true,
            hasARSupport := true }).gesture.truthy = true := by
  have h := getInteractionModes_derivation tabletWindow "tablet"
    { touchSupport := true, hasMicrophone := Flag.bool false,
      hasCamera := Flag.promise true, hasGyroscope := true, hasARSupport := true }
  refine ⟨?_, h.2.2.2.2.2.2.2.2.2.2.2.2.1 (by decide)⟩
  rw [h.1]
  decide

/-- C20, evaluation of the source: there is no final clamp, so a negative
memory hint can take the score below 0. Scenario 1 with a memory hint of -100
scores 16 + 15 + 0 + 20 - 100 = -49. -/
theorem calculatePerformanceScore_negative_memory :
    calculatePerformanceScore { scenarioCaps with memory := some (-100) } = -49
      ∧ ¬ (0 ≤ calculatePerformanceScore { scenarioCaps with memory := some (-100) }) := by
  have e : calculatePerformanceScore { scenarioCaps with memory := some (-100) } = -49 := by
    norm_num [calculatePerformanceScore, scenarioCaps]
  rw [e]
  norm_num

/-- C20, amended. For every capabilities value with a positive number of cores
and every memory value, values above 10 and negative values included, the
score is at most 100; it is at least 0 whenever the memory hint is absent or
at least -9. -/
theorem calculatePerformanceScore_any_memory (c : Capabilities) (hcpu : 0 < c.cpuCores) :
    calculatePerformanceScore c ≤ 100
      ∧ ((∀ m, c.memory = some m → -9 ≤ m) → 0 ≤ calculatePerformanceScore c) := by
  rw [calculatePerformanceScore_sum]
  have hcpuQ : (4 : ℚ) ≤ (c.cpuCores : ℚ) * 4 := by
    have : (1 : ℚ) ≤ (c.cpuCores : ℚ) := by exact_mod_cast hcpu
    linarith
  have c1 : (4 : ℚ) ≤ min ((c.cpuCores : ℚ) * 4) 25 := le_min hcpuQ (by norm_num)
  have c2 : min ((c.cpuCores : ℚ) * 4) 25 ≤ 25 := min_le_right _ _
  have s := screenBucket_bounds ((c.screenWidth : ℚ) * (c.screenHeight : ℚ) * c.pixelRatio)
  have k := connectionTerm_bounds c.connection
  have m1 := memoryTerm_le c.memory
  have g : (0 : ℚ) ≤ (if c.hasWebGL then 25 else 0) ∧ (if c.hasWebGL then (25 : ℚ) else 0) ≤ 25 := by
    split_ifs <;> norm_num
  refine ⟨by linarith [s.2, k.2, g.2], fun hm => ?_⟩
  have m0 : -9 ≤ memoryTerm c.memory := by
    cases hmem : c.memory with
    | none => norm_num [memoryTerm]
    | some m =>
      simp only [memoryTerm]
      split_ifs
      · exact le_min (hm m hmem) (by norm_num)
      · norm_num
  linarith [s.1, k.1, g.1]

/-- Witness for C20 amended: a memory hint of 16 (above 10) keeps scenario 1 at
most 100, and a memory hint of -9 keeps it at least 0. -/
theorem calculatePerformanceScore_any_memory_witness :
    calculatePerformanceScore { scenarioCaps with memory := some 16 } ≤ 100
      ∧ 0 ≤ calculatePerformanceScore { scenarioCaps with memory := some (-9) } :=
  ⟨(calculatePerformanceScore_any_memory { scenarioCaps with memory := some 16 }
      (by decide)).1,
   (calculatePerformanceScore_any_memory { scenarioCaps with memory := some (-9) }
      (by decide)).2 (by intro m hm; simp at hm; rw [← hm])⟩

/-! ## Claims on integrality, the probe and behaviour of the selection -/

/-- Every contribution but the memory term is a whole number. -/
theorem calculatePerformanceScore_int_part (c : Capabilities) :
    ∃ n : ℤ, calculatePerformanceScore c = (n : ℚ) + memoryTerm c.memory := by
  rw [calculatePerformanceScore_sum]
  have hcpu : ∃ a : ℤ, min ((c.cpuCores : ℚ) * 4) 25 = (a : ℚ) :=
    ⟨min (c.cpuCores * 4) 25, by push_cast; rfl⟩
  have hscreen : ∃ b : ℤ,
      screenBucket ((c.screenWidth : ℚ) * (c.screenHeight : ℚ) * c.pixelRatio) = (b : ℚ) := by
    unfold screenBucket
    split_ifs
    · exact ⟨20, by norm_num⟩
    · exact ⟨15, by norm_num⟩
    · exact ⟨10, by norm_num⟩
    · exact ⟨5, by norm_num⟩
  have hgl : ∃ g : ℤ, (if c.hasWebGL then (25 : ℚ) else 0) = (g : ℚ) := by
    split_ifs
    · exact ⟨25, by norm_num⟩
    · exact ⟨0, by norm_num⟩
  have hconn : ∃ k : ℤ, connectionTerm c.connection = (k : ℚ) := by
    cases c.connection with
    | none => exact ⟨10, by norm_num [connectionTerm]⟩
    | some conn =>
      simp only [connectionTerm]
      split_ifs
      · exact ⟨20, by norm_num⟩
      · exact ⟨15, by norm_num⟩
      · exact ⟨5, by norm_num⟩
      · exact ⟨0, by norm_num⟩
  obtain ⟨a, ha⟩ := hcpu
  obtain ⟨b, hb⟩ := hscreen
  obtain ⟨g, hg⟩ := hgl
  obtain ⟨k, hk⟩ := hconn
  refine ⟨a + b + g + k, ?_⟩
  rw [ha, hb, hg, hk]
  push_cast
  ring

/-- C21, evaluation of the source: with a memory hint of 0.5 GB scenario 1
scores 51.5, which is not an integer. -/
theorem calculatePerformanceScore_half_memory :
    calculatePerformanceScore { scenarioCaps with memory := some (1 / 2) } = 103 / 2
      ∧ ¬ ∃ n : ℤ,
          calculatePerformanceScore { scenarioCaps with memory := some (1 / 2) } = (n : ℚ) := by
  have e : calculatePerformanceScore { scenarioCaps with memory := some (1 / 2) } = 103 / 2 := by
    norm_num [calculatePerformanceScore, scenarioCaps]
  refine ⟨e, ?_⟩
  rw [e]
  rintro ⟨n, hn⟩
  have h2 : ((103 : ℤ) : ℚ) = ((2 * n : ℤ) : ℚ) := by
    push_cast
    linarith
  have h3 : (103 : ℤ) = 2 * n := by exact_mod_cast h2
  omega

/-- The memory term is a whole number exactly when the memory hint is absent,
at least 10, or a whole number itself. -/
theorem memoryTerm_integer_iff (memory : Option ℚ) :
    (∃ b : ℤ, memoryTerm memory = (b : ℚ))
      ↔ ∀ m, memory = some m → 10 ≤ m ∨ ∃ k : ℤ, m = (k : ℚ) := by
  cases memory with
  | none =>
    constructor
    · intro _ m hm
      simp at hm
    · intro _
      exact ⟨5, by norm_num [memoryTerm]⟩
  | some m =>
    simp only [memoryTerm]
    by_cases h0 : m = 0
    · constructor
      · intro _ x hx
        have hxm : m = x := Option.some.inj hx
        exact Or.inr ⟨0, by rw [← hxm, h0]; norm_num⟩
      · intro _
        exact ⟨5, by simp [h0]⟩
    · rw [if_pos h0]
      by_cases h10 : 10 ≤ m
      · constructor
        · intro _ x hx
          have hxm : m = x := Option.some.inj hx
          exact Or.inl (by rw [← hxm]; exact h10)
        · intro _
          exact ⟨10, by rw [min_eq_right h10]; norm_num⟩
      · have hlt : m ≤ 10 := le_of_lt (not_le.mp h10)
        rw [min_eq_left hlt]
        constructor
        · rintro ⟨b, hb⟩ x hx
          have hxm : m = x := Option.some.inj hx
          exact Or.inr ⟨b, by rw [← hxm]; exact hb⟩
        · intro h
          rcases h m rfl with h | h
          · exact absurd h h10
          · exact h

/-- C21, amended. For every capabilities value the score is an integer exactly
when the memory hint is absent, at least 10 (the memory term is capped at 10),
or a whole number of gigabytes; so for every fractional hint below 10, such as
0.5, the score is not an integer. -/
theorem calculatePerformanceScore_integer (c : Capabilities) :
    ((∃ n : ℤ, calculatePerformanceScore c = (n : ℚ))
        ↔ ∀ m, c.memory = some m → 10 ≤ m ∨ ∃ k : ℤ, m = (k : ℚ))
      ∧ (c.memory = none → ∃ n : ℤ, calculatePerformanceScore c = (n : ℚ))
      ∧ (∀ m, c.memory = some m → (10 ≤ m ∨ ∃ k : ℤ, m = (k : ℚ)) →
          ∃ n : ℤ, calculatePerformanceScore c = (n : ℚ))
      ∧ (∀ m, c.memory = some m → m < 10 → (¬ ∃ k : ℤ, m = (k : ℚ)) →
          ¬ ∃ n : ℤ, calculatePerformanceScore c = (n : ℚ)) := by
  have key : (∃ n : ℤ, calculatePerformanceScore c = (n : ℚ))
      ↔ ∀ m, c.memory = some m → 10 ≤ m ∨ ∃ k : ℤ, m = (k : ℚ) := by
    obtain ⟨a, ha⟩ := calculatePerformanceScore_int_part c
    rw [← memoryTerm_integer_iff c.memory, ha]
    constructor
    · rintro ⟨n, hn⟩
      exact ⟨n - a, by push_cast; linarith⟩
    · rintro ⟨b, hb⟩
      exact ⟨a + b, by rw [hb]; push_cast; rfl⟩
  refine ⟨key, fun hnone => ?_, fun m hm h => ?_, fun m hm hlt hfrac hint => ?_⟩
  · exact key.mpr (fun m hm => by rw [hnone] at hm; simp at hm)
  · refine key.mpr (fun x hx => ?_)
    have hxm : m = x := Option.some.inj (hm.symm.trans hx)
    rw [← hxm]
    exact h
  · rcases key.mp hint m hm with h10 | hk
    · exact absurd h10 (not_le.mpr hlt)
    · exact hfrac hk

/-- Witness for C21 amended: 4 GB of memory gives an integer score (70), and a
memory hint of 2.5 GB cannot give one. -/
theorem calculatePerformanceScore_integer_witness :
    (∃ n : ℤ, calculatePerformanceScore caps70 = (n : ℚ))
      ∧ ¬ ∃ n : ℤ, calculatePerformanceScore { caps70 with memory := some (5 / 2) } = (n : ℚ) := by
  refine ⟨(calculatePerformanceScore_integer caps70).2.2.1 4 rfl
      (Or.inr ⟨4, by norm_num⟩),
    (calculatePerformanceScore_integer { caps70 with memory := some (5 / 2) }).2.2.2
      (5 / 2) rfl (by norm_num) ?_⟩
  rintro ⟨k, hk⟩
  have h2 : ((5 : ℤ) : ℚ) = ((2 * k : ℤ) : ℚ) := by
    push_cast
    linarith
  have h3 : (5 : ℤ) = 2 * k := by exact_mod_cast h2
  omega

/-- C22, evaluation of the source: in a browser whose enumeration lists no
device, `hasMicrophone` and `hasCamera` of the snapshot are promises (not
booleans), hence truthy, and so are the voice and gesture modes. Only a
missing enumeration API gives the boolean `false`. -/
theorem detectDeviceCapabilities_media_flags :
    (detectDeviceCapabilities bareNavigator).hasMicrophone = Flag.promise false
      ∧ (detectDeviceCapabilities bareNavigator).hasCamera = Flag.promise false
      ∧ (detectDeviceCapabilities bareNavigator).hasMicrophone ≠ Flag.bool false
      ∧ (getInteractionModes desktopWindow
          (detectDeviceCapabilities bareNavigator)).voice.truthy = true
      ∧ (getInteractionModes desktopWindow
          (detectDeviceCapabilities bareNavigator)).gesture.truthy = true
      ∧ (detectDeviceCapabilities { bareNavigator with mediaDevices := none }).hasMicrophone
          = Flag.bool false := by
  decide

/-- C25. With WebGL, at least one core and a memory hint that is absent or
positive, the score is at least 34; so the branch for mobile and a score below
30 is not taken: the avatar tier is never text_only, and on the device class
mobile it is 2d. -/
theorem determineAvatarFidelity_webgl_floor (w : Window) (c : Capabilities)
    (hgl : c.hasWebGL = true) (hcpu : 1 ≤ c.cpuCores)
    (hmem : ∀ m, c.memory = some m → 0 < m) :
    34 ≤ calculatePerformanceScore c
      ∧ ¬ (detectDeviceType w = DEVICE_TYPES.MOBILE ∧ calculatePerformanceScore c < 30)
      ∧ determineAvatarFidelity w c ≠ AVATAR_FIDELITY.TEXT
      ∧ (detectDeviceType w = "mobile" → determineAvatarFidelity w c = AVATAR_FIDELITY.LOW) := by
  have hs : 34 ≤ calculatePerformanceScore c := by
    rw [calculatePerformanceScore_sum]
    have hcpuQ : (4 : ℚ) ≤ (c.cpuCores : ℚ) * 4 := by
      have : (1 : ℚ) ≤ (c.cpuCores : ℚ) := by exact_mod_cast hcpu
      linarith
    have c1 : (4 : ℚ) ≤ min ((c.cpuCores : ℚ) * 4) 25 := le_min hcpuQ (by norm_num)
    have s := screenBucket_bounds ((c.screenWidth : ℚ) * (c.screenHeight : ℚ) * c.pixelRatio)
    have k := connectionTerm_bounds c.connection
    have m0 := memoryTerm_nonneg c.memory hmem
    simp only [hgl, if_true]
    linarith [s.1, k.1]
  have hn : ¬ (detectDeviceType w = DEVICE_TYPES.MOBILE ∧ calculatePerformanceScore c < 30) := by
    rintro ⟨_, h⟩
    linarith
  have e : determineAvatarFidelity w c =
      avatarFidelityChain (detectDeviceType w) (calculatePerformanceScore c) := by
    simp [determineAvatarFidelity, hgl]
  refine ⟨hs, hn, ?_, ?_⟩
  · rw [e]
    unfold avatarFidelityChain
    rw [if_neg hn]
    split_ifs <;> decide
  · intro hd
    rw [e]
    unfold avatarFidelityChain
    rw [if_neg hn, hd]
    simp +decide [DEVICE_TYPES.DESKTOP, DEVICE_TYPES.LAPTOP]

/-- Witness for C25: a phone with WebGL, one core and 1 GB on slow-2g (score
40 with the 1440 by 900 screen of the sample) gets 2d. -/
theorem determineAvatarFidelity_webgl_floor_witness :
    34 ≤ calculatePerformanceScore caps40
      ∧ determineAvatarFidelity phoneWindow caps40 = "2d" :=
  ⟨(determineAvatarFidelity_webgl_floor phoneWindow caps40 rfl (by decide)
      (by intro m hm; simp [caps40] at hm; rw [← hm]; norm_num)).1,
   (determineAvatarFidelity_webgl_floor phoneWindow caps40 rfl (by decide)
      (by intro m hm; simp [caps40] at hm; rw [← hm]; norm_num)).2.2.2 (by decide)⟩

/-- The body of `determineContentQuality` on a capabilities value whose
connection has the given effective type and save-data off. -/
theorem contentQualityFrom_withEffectiveType (d : String) (s : ℚ) (c : Capabilities)
    (t : String) :
    contentQualityFrom d s (withEffectiveType c t)
      = contentQualityByConnection d s { effectiveType := some t, saveData := false } :=
  contentQualityFrom_connection d s (withEffectiveType c t) _ rfl rfl

theorem contentQualityByConnection_4g_rank (d : String) (s : ℚ) :
    2 ≤ tierRank (contentQualityByConnection d s { effectiveType := some "4g", saveData := false }) := by
  simp only [contentQualityByConnection, if_true]
  split_ifs <;> decide

theorem contentQualityByConnection_3g_rank (d : String) (s : ℚ) :
    tierRank (contentQualityByConnection d s { effectiveType := some "3g", saveData := false })
      ≤ 2 := by
  simp +decide only [contentQualityByConnection, if_true, if_false, Option.some.injEq]
  split_ifs <;> decide

theorem contentQualityByConnection_2g_rank (d : String) (s : ℚ) :
    tierRank (contentQualityByConnection d s { effectiveType := some "2g", saveData := false })
      = 0 := by
  simp +decide [contentQualityByConnection, tierRank]

theorem contentQualityByConnection_slow2g_rank (d : String) (s : ℚ) :
    tierRank
        (contentQualityByConnection d s { effectiveType := some "slow-2g", saveData := false })
      = 0 := by
  simp +decide [contentQualityByConnection, tierRank]

/-- Monotonicity of the body for any device class string and any two scores. -/
theorem contentQualityByConnection_mono (d : String) (s1 s2 : ℚ) (t1 t2 : String)
    (h1 : t1 ∈ effectiveTypes) (h2 : t2 ∈ effectiveTypes)
    (hle : connectionRank t1 ≤ connectionRank t2)
    (hs : t1 = t2 → s1 = s2) :
    tierRank (contentQualityByConnection d s1 { effectiveType := some t1, saveData := false })
      ≤ tierRank
          (contentQualityByConnection d s2 { effectiveType := some t2, saveData := false }) := by
  simp only [effectiveTypes, List.mem_cons, List.mem_singleton, List.not_mem_nil, or_false]
    at h1 h2
  rcases h1 with rfl | rfl | rfl | rfl
  · rw [contentQualityByConnection_slow2g_rank]; exact Nat.zero_le _
  · rw [contentQualityByConnection_2g_rank]; exact Nat.zero_le _
  · rcases h2 with rfl | rfl | rfl | rfl
    · exact absurd hle (by decide)
    · exact absurd hle (by decide)
    · rw [hs rfl]
    · exact le_trans (contentQualityByConnection_3g_rank d s1)
        (contentQualityByConnection_4g_rank d s2)
  · rcases h2 with rfl | rfl | rfl | rfl
    · exact absurd hle (by decide)
    · exact absurd hle (by decide)
    · exact absurd hle (by decide)
    · rw [hs rfl]

/-- C26. For two capabilities values that differ only in the effective type
of the connection (save-data off), ordered slow-2g, 2g, 3g, 4g, the content
quality chosen for the better connection is at least as rich as the one chosen
for the worse connection, in the order minimal, low, medium, high, ultra; this
holds for every window, and for the body at every device class string, with
the score recomputed for each connection. -/
theorem determineContentQuality_monotone (w : Window) (c : Capabilities) (t1 t2 : String)
    (h1 : t1 ∈ effectiveTypes) (h2 : t2 ∈ effectiveTypes)
    (hle : connectionRank t1 ≤ connectionRank t2) :
    tierRank (determineContentQuality w (withEffectiveType c t1))
        ≤ tierRank (determineContentQuality w (withEffectiveType c t2))
      ∧ ∀ d : String,
          tierRank (contentQualityFrom d (calculatePerformanceScore (withEffectiveType c t1))
              (withEffectiveType c t1))
            ≤ tierRank (contentQualityFrom d (calculatePerformanceScore (withEffectiveType c t2))
              (withEffectiveType c t2)) := by
  have key : ∀ d : String,
      tierRank (contentQualityFrom d (calculatePerformanceScore (withEffectiveType c t1))
          (withEffectiveType c t1))
        ≤ tierRank (contentQualityFrom d (calculatePerformanceScore (withEffectiveType c t2))
          (withEffectiveType c t2)) := by
    intro d
    rw [contentQualityFrom_withEffectiveType, contentQualityFrom_withEffectiveType]
    exact contentQualityByConnection_mono d _ _ t1 t2 h1 h2 hle (fun h => by rw [h])
  exact ⟨key _, key⟩

/-- Witness for C26: going from 3g to 4g on a desktop does not lower the tier. -/
theorem determineContentQuality_monotone_witness :
    tierRank (determineContentQuality desktopWindow (withEffectiveType caps88 "3g"))
      ≤ tierRank (determineContentQuality desktopWindow (withEffectiveType caps88 "4g")) :=
  (determineContentQuality_monotone desktopWindow caps88 "3g" "4g" (by decide) (by decide)
    (by decide)).1

/-- C27. A present connection whose effective type is none of 4g, 3g, 2g
contributes 0 to the score, so the score is exactly 10 lower than that of the
same capabilities without connection information. -/
theorem calculatePerformanceScore_unknown_connection (c : Capabilities) (conn : Connection)
    (hc : c.connection = some conn)
    (h4 : conn.effectiveType ≠ some "4g") (h3 : conn.effectiveType ≠ some "3g")
    (h2 : conn.effectiveType ≠ some "2g") :
    connectionTerm c.connection = 0
      ∧ calculatePerformanceScore c + 10
          = calculatePerformanceScore { c with connection := none } := by
  have hk : connectionTerm c.connection = 0 := by
    rw [hc]
    simp [connectionTerm, h4, h3, h2]
  refine ⟨hk, ?_⟩
  rw [calculatePerformanceScore_sum, calculatePerformanceScore_sum, hk]
  simp only [connectionTerm]
  ring

/-- Witness for C27: slow-2g against no connection information (40 and 50). -/
theorem calculatePerformanceScore_unknown_connection_witness :
    connectionTerm caps40.connection = 0
      ∧ calculatePerformanceScore caps40 + 10
          = calculatePerformanceScore { caps40 with connection := none } :=
  calculatePerformanceScore_unknown_connection caps40
    { effectiveType := some "slow-2g", saveData := false } rfl
    (by decide) (by decide) (by decide)

/-- C28. On a non-mobile user agent the width-only classifier of the device
provider and the classifier of the service agree exactly when the width is at
least 768; below 768 the provider returns mobile and the service tablet. The
height plays no part. -/
theorem providerDetectDeviceType_agreement (w : Window)
    (hua : isMobileUserAgent w.userAgent = false) :
    (providerDetectDeviceType w = detectDeviceType w ↔ 768 ≤ w.innerWidth)
      ∧ (768 ≤ w.innerWidth → providerDetectDeviceType w = detectDeviceType w)
      ∧ (w.innerWidth < 768 →
          providerDetectDeviceType w = "mobile" ∧ detectDeviceType w = "tablet") := by
  have e : detectDeviceType w =
      if w.innerWidth < 1024 then "tablet"
      else if w.innerWidth < 1440 then "laptop"
      else "desktop" := by
    simp only [detectDeviceType, hua, Bool.false_eq_true, if_false, DEVICE_TYPES.TABLET,
      DEVICE_TYPES.LAPTOP, DEVICE_TYPES.DESKTOP]
    split_ifs <;> first | rfl | omega
  have hge : 768 ≤ w.innerWidth → providerDetectDeviceType w = detectDeviceType w := by
    intro h
    rw [e]
    unfold providerDetectDeviceType
    simp only []
    rw [if_neg (by omega)]
  have hlt : w.innerWidth < 768 →
      providerDetectDeviceType w = "mobile" ∧ detectDeviceType w = "tablet" := by
    intro h
    rw [e]
    unfold providerDetectDeviceType
    simp only []
    rw [if_pos h, if_pos (by omega)]
    exact ⟨rfl, rfl⟩
  refine ⟨⟨fun heq => ?_, hge⟩, hge, hlt⟩
  by_contra hcon
  obtain ⟨hp, hs⟩ := hlt (by omega)
  rw [hp, hs] at heq
  exact absurd heq (by decide)

/-- Witness for C28: at width 1024 both return laptop; at width 700 on a
desktop browser the provider returns mobile and the service tablet. -/
theorem providerDetectDeviceType_agreement_witness :
    providerDetectDeviceType window1024 = detectDeviceType window1024
      ∧ providerDetectDeviceType { desktopWindow with innerWidth := 700 } = "mobile"
      ∧ detectDeviceType { desktopWindow with innerWidth := 700 } = "tablet" :=
  ⟨(providerDetectDeviceType_agreement window1024 (by decide)).2.1 (by decide),
   (providerDetectDeviceType_agreement { desktopWindow with innerWidth := 700 }
      (by decide)).2.2 (by decide)⟩

/-- C29, evaluation of the source: on the `deviceInfo` shapes the device
provider publishes (`networkInfo` beside `capabilities`, not inside it) the
adapter does not return a module; reading `capabilities.networkInfo.bandwidth`
throws. -/
theorem adaptContentForDeviceOn_provider_shape :
    adaptContentForDeviceOn (moduleOf [textItem]) providerInitialInfo
        = Except.error "TypeError: Cannot read properties of undefined (reading bandwidth)"
      ∧ adaptContentForDeviceOn (moduleOf [videoItem, textItem]) providerLaptopInfo
        = Except.error "TypeError: Cannot read properties of undefined (reading bandwidth)" :=
  ⟨rfl, rfl⟩

/-- No module comes out for any `deviceInfo` without `capabilities.networkInfo`. -/
theorem adaptContentForDeviceOn_no_networkInfo (m : Module) (info : PassedDeviceInfo)
    (h : info.capabilities.networkInfo = none) (out : Module) :
    adaptContentForDeviceOn m info ≠ Except.ok out := by
  simp [adaptContentForDeviceOn, h]

/-! ## Claims on the avatar initialization, the streak and the course progress -/

/-- When the profile lookup succeeds, the fidelity used is the stored
(non-empty) avatarFidelity preference for the current device class when there
is one, whatever tier is computed (also text_only on a device without WebGL),
and the computed tier of `determineAvatarFidelity` when there is none; without
a user it is the computed tier. -/
theorem initializeAvatar_fidelity (w : Window) (capabilities : Capabilities) (uid : String)
    (getUserProfile : String → Except String UserProfile) (userProfile : UserProfile)
    (hfetch : getUserProfile uid = Except.ok userProfile) :
    (∀ preferred : String,
        storedAvatarFidelity userProfile (detectDeviceType w) = some preferred →
        preferred ≠ "" →
        initializeAvatar w capabilities (some uid) getUserProfile = Except.ok preferred)
      ∧ (storedAvatarFidelity userProfile (detectDeviceType w) = none →
          initializeAvatar w capabilities (some uid) getUserProfile
            = Except.ok (determineAvatarFidelity w capabilities))
      ∧ initializeAvatar w capabilities none getUserProfile
          = Except.ok (determineAvatarFidelity w capabilities) := by
  refine ⟨?_, ?_, rfl⟩
  · intro preferred hp hne
    simp [initializeAvatar, hfetch, hp, orNull, hne]
  · intro hp
    simp [initializeAvatar, hfetch, hp, orNull]

/-- On a desktop without WebGL the computed tier is text_only, and the stored
preference 3d_full is used; on a tablet, for which the profile stores nothing,
the computed tier is used. -/
theorem initializeAvatar_fidelity_example :
    determineAvatarFidelity desktopWindow scenarioCaps = "text_only"
      ∧ initializeAvatar desktopWindow scenarioCaps (some "u1")
          (fun _ => Except.ok fullAvatarProfile) = Except.ok "3d_full"
      ∧ initializeAvatar tabletWindow caps88 (some "u1")
          (fun _ => Except.ok fullAvatarProfile)
        = Except.ok (determineAvatarFidelity tabletWindow caps88) :=
  ⟨by simp [determineAvatarFidelity, scenarioCaps, AVATAR_FIDELITY.TEXT],
   (initializeAvatar_fidelity desktopWindow scenarioCaps "u1"
      (fun _ => Except.ok fullAvatarProfile) fullAvatarProfile rfl).1 "3d_full"
      (by decide) (by decide),
   (initializeAvatar_fidelity tabletWindow caps88 "u1"
      (fun _ => Except.ok fullAvatarProfile) fullAvatarProfile rfl).2.1 (by decide)⟩

/-- C23, evaluation of the source: for a logged-in user whose profile document
is missing, `getUserProfile` rejects, the `catch` block of lines 57-61 runs and
no fidelity is set, although no preference is available and
`determineAvatarFidelity` computes 2.5d for the device; without a user the
same device gets the computed tier. -/
theorem initializeAvatar_profile_missing :
    initializeAvatar desktopWindow caps70 (some "u1")
        (fun _ => Except.error "User profile not found")
        = Except.error "User profile not found"
      ∧ determineAvatarFidelity desktopWindow caps70 = "2.5d"
      ∧ initializeAvatar desktopWindow caps70 (some "u1")
          (fun _ => Except.error "User profile not found")
        ≠ Except.ok (determineAvatarFidelity desktopWindow caps70)
      ∧ initializeAvatar desktopWindow caps70 none
          (fun _ => Except.error "User profile not found")
        = Except.ok "2.5d" := by
  have hd : determineAvatarFidelity desktopWindow caps70 = "2.5d" := by
    have e : determineAvatarFidelity desktopWindow caps70 =
        avatarFidelityChain (detectDeviceType desktopWindow)
          (calculatePerformanceScore caps70) := by
      simp [determineAvatarFidelity, caps70]
    rw [e, desktopWindow_type, caps70_score]
    simp +decide [avatarFidelityChain, DEVICE_TYPES.DESKTOP, AVATAR_FIDELITY.MEDIUM]
  have he : initializeAvatar desktopWindow caps70 (some "u1")
      (fun _ => Except.error "User profile not found")
      = Except.error "User profile not found" := rfl
  refine ⟨he, hd, ?_, ?_⟩
  · rw [he]
    intro h
    cases h
  · show Except.ok (determineAvatarFidelity desktopWindow caps70) = Except.ok "2.5d"
    rw [hd]

/-- Rounding a whole number leaves it unchanged. -/
theorem jsRound_intCast (n : ℤ) : jsRound (n : ℚ) = n := by
  unfold jsRound
  rw [Int.floor_eq_iff]
  constructor <;> linarith

/-- C24, evaluation of the source: after 30 minutes of activity today and none
on the six days before, the array built by `processActivityData` ends with
today at 30 minutes, the current streak is 1, and `calculateStreak` returns 0,
because its loop counts from the oldest day. With activity on the two oldest
days and today it returns 2 where the current streak is 1. -/
theorem calculateStreak_counts_from_oldest :
    processActivityData 100 [{ date := 100, timeSpent := 1800 }]
        = [{ date := 94, minutes := 0 }, { date := 95, minutes := 0 },
           { date := 96, minutes := 0 }, { date := 97, minutes := 0 },
           { date := 98, minutes := 0 }, { date := 99, minutes := 0 },
           { date := 100, minutes := 30 }]
      ∧ calculateStreak 100 (processActivityData 100 [{ date := 100, timeSpent := 1800 }]) = 0
      ∧ currentStreak (processActivityData 100 [{ date := 100, timeSpent := 1800 }]) = 1
      ∧ calculateStreak 100
          [{ date := 94, minutes := 10 }, { date := 95, minutes := 10 },
           { date := 96, minutes := 0 }, { date := 97, minutes := 0 },
           { date := 98, minutes := 0 }, { date := 99, minutes := 0 },
           { date := 100, minutes := 30 }] = 2
      ∧ currentStreak
          [{ date := 94, minutes := 10 }, { date := 95, minutes := 10 },
           { date := 96, minutes := 0 }, { date := 97, minutes := 0 },
           { date := 98, minutes := 0 }, { date := 99, minutes := 0 },
           { date := 100, minutes := 30 }] = 1 := by
  have hr : jsRound ((1800 : ℚ) / 60) = 30 := by
    have h := jsRound_intCast 30
    norm_num at h ⊢
    exact h
  have e : processActivityData 100 [{ date := 100, timeSpent := 1800 }]
      = [{ date := 94, minutes := 0 }, { date := 95, minutes := 0 },
         { date := 96, minutes := 0 }, { date := 97, minutes := 0 },
         { date := 98, minutes := 0 }, { date := 99, minutes := 0 },
         { date := 100, minutes := 30 }] := by
    simp [processActivityData, addMinutes, hr]
  rw [e]
  refine ⟨rfl, ?_, ?_, ?_, ?_⟩ <;> decide

/-- The inner loop adds the completed lessons and all lessons of one module. -/
theorem lessons_foldl_counts (progress : String → String → Bool) (moduleId : String)
    (lessons : List Lesson) (counts : Nat × Nat) :
    lessons.foldl
        (fun counts lesson =>
          (if progress moduleId lesson.id then counts.1 + 1 else counts.1, counts.2 + 1))
        counts
      = (counts.1 + lessons.countP (fun lesson => progress moduleId lesson.id),
         counts.2 + lessons.length) := by
  induction lessons generalizing counts with
  | nil => simp
  | cons lesson rest ih =>
    rw [List.foldl_cons, ih]
    by_cases h : progress moduleId lesson.id = true
    · simp [h, List.countP_cons]
      omega
    · simp [h, List.countP_cons]
      omega

theorem modules_foldl_counts (progress : String → String → Bool)
    (modules : List CourseModule) (counts : Nat × Nat) :
    modules.foldl
        (fun counts module =>
          module.lessons.foldl
            (fun counts lesson =>
              (if progress module.id lesson.id then counts.1 + 1 else counts.1, counts.2 + 1))
            counts)
        counts
      = (counts.1 + (modules.map fun module =>
            module.lessons.countP fun lesson => progress module.id lesson.id).sum,
         counts.2 + (modules.map fun module => module.lessons.length).sum) := by
  induction modules generalizing counts with
  | nil => simp
  | cons module rest ih =>
    rw [List.foldl_cons, lessons_foldl_counts, ih]
    simp only [List.map_cons, List.sum_cons]
    ext <;> simp <;> omega

/-- The two counters of the loops are the numbers of completed and of all
lessons. -/
theorem countLessons_eq (progress : String → String → Bool) (course : Course) :
    countLessons progress course = (completedCount progress course, totalCount course) := by
  unfold countLessons completedCount totalCount
  rw [modules_foldl_counts]
  simp

theorem completed_le_total_modules (progress : String → String → Bool)
    (modules : List CourseModule) :
    (modules.map fun module =>
        module.lessons.countP fun lesson => progress module.id lesson.id).sum
      ≤ (modules.map fun module => module.lessons.length).sum := by
  induction modules with
  | nil => simp
  | cons module rest ih =>
    simp only [List.map_cons, List.sum_cons]
    have h := List.countP_le_length (fun lesson => progress module.id lesson.id)
      (l := module.lessons)
    omega

theorem completedCount_le_totalCount (progress : String → String → Bool) (course : Course) :
    completedCount progress course ≤ totalCount course :=
  completed_le_total_modules progress course.modules

theorem countP_lt_length_of_open (progress : String → String → Bool) (moduleId : String)
    (lessons : List Lesson) (lesson : Lesson) (hmem : lesson ∈ lessons)
    (hopen : progress moduleId lesson.id = false) :
    lessons.countP (fun lesson => progress moduleId lesson.id) < lessons.length := by
  induction lessons with
  | nil => simp at hmem
  | cons first rest ih =>
    have hle := List.countP_le_length (fun lesson => progress moduleId lesson.id) (l := rest)
    rcases List.mem_cons.mp hmem with h | h
    · subst h
      simp [List.countP_cons, hopen]
      omega
    · have := ih h
      by_cases hf : progress moduleId first.id = true
      · simp [List.countP_cons, hf]
        omega
      · simp [List.countP_cons, hf]
        omega

theorem completed_lt_total_modules (progress : String → String → Bool)
    (modules : List CourseModule)
    (hopen : ∃ module ∈ modules, ∃ lesson ∈ module.lessons,
      progress module.id lesson.id = false) :
    (modules.map fun module =>
        module.lessons.countP fun lesson => progress module.id lesson.id).sum
      < (modules.map fun module => module.lessons.length).sum := by
  obtain ⟨module, hm, lesson, hl, hp⟩ := hopen
  induction modules with
  | nil => simp at hm
  | cons first rest ih =>
    simp only [List.map_cons, List.sum_cons]
    have hall := completed_le_total_modules progress rest
    have hfirst := List.countP_le_length (fun lesson => progress first.id lesson.id)
      (l := first.lessons)
    rcases List.mem_cons.mp hm with h | h
    · subst h
      have := countP_lt_length_of_open progress module.id module.lessons lesson hl hp
      omega
    · have := ih h
      omega

/-- A lesson that is not completed makes the completed count fall short. -/
theorem completedCount_lt_totalCount (progress : String → String → Bool) (course : Course)
    (hopen : ∃ module ∈ course.modules, ∃ lesson ∈ module.lessons,
      progress module.id lesson.id = false) :
    completedCount progress course < totalCount course :=
  completed_lt_total_modules progress course.modules hopen

/-- The value returned for a known course, from the two counts. -/
theorem getCourseProgress_of_find (courses : List Course) (progress : String → String → Bool)
    (courseId : String) (course : Course)
    (hfind : (courses.find? fun c => c.id == courseId) = some course) :
    getCourseProgress courses progress courseId =
      if totalCount course = 0 then 0
      else jsRound ((completedCount progress course : ℚ) / (totalCount course : ℚ) * 100) := by
  simp only [getCourseProgress, hfind, countLessons_eq]

/-- Rounding a percentage: between 0 and 100, and below 100 exactly when fewer
than 99.5 percent are completed. -/
theorem jsRound_percent (completed total : Nat) (hle : completed ≤ total) (hpos : 0 < total) :
    0 ≤ jsRound ((completed : ℚ) / (total : ℚ) * 100)
      ∧ jsRound ((completed : ℚ) / (total : ℚ) * 100) ≤ 100
      ∧ (jsRound ((completed : ℚ) / (total : ℚ) * 100) < 100
          ↔ 200 * completed < 199 * total) := by
  have hT : (0 : ℚ) < (total : ℚ) := by exact_mod_cast hpos
  have hC : (0 : ℚ) ≤ (completed : ℚ) := by exact_mod_cast Nat.zero_le completed
  have hCT : (completed : ℚ) ≤ (total : ℚ) := by exact_mod_cast hle
  have hq0 : (0 : ℚ) ≤ (completed : ℚ) / (total : ℚ) * 100 := by positivity
  have hq1 : (completed : ℚ) / (total : ℚ) * 100 ≤ 100 := by
    have : (completed : ℚ) / (total : ℚ) ≤ 1 := (div_le_one hT).mpr hCT
    linarith
  unfold jsRound
  refine ⟨Int.floor_nonneg.mpr (by linarith), ?_, ?_⟩
  · have : ⌊(completed : ℚ) / (total : ℚ) * 100 + 1 / 2⌋ < 101 :=
      Int.floor_lt.mpr (by push_cast; linarith)
    omega
  · rw [Int.floor_lt]
    push_cast
    constructor
    · intro h
      have h2 : (completed : ℚ) / (total : ℚ) < 199 / 200 := by linarith
      rw [div_lt_iff₀ hT] at h2
      have h3 : (200 : ℚ) * (completed : ℚ) < 199 * (total : ℚ) := by linarith
      exact_mod_cast h3
    · intro h
      have h3 : (200 : ℚ) * (completed : ℚ) < 199 * (total : ℚ) := by exact_mod_cast h
      have h2 : (completed : ℚ) / (total : ℚ) < 199 / 200 := by
        rw [div_lt_iff₀ hT]
        linarith
      linarith

set_option maxRecDepth 100000 in
theorem longCourse_counts : countLessons allButLast longCourse = (200, 201) := by
  decide

set_option maxRecDepth 100000 in
theorem longCourse_last_open : allButLast "m1" (tallyId 200) = false := by
  decide

theorem longCourse_found :
    ([longCourse].find? fun c => c.id == "anatomy") = some longCourse := by
  rfl

/-- C30, evaluation of the source: for a course of 201 lessons of which 200
are completed and one is not, `Math.round(200 / 201 * 100)` is 100. -/
theorem getCourseProgress_rounds_to_100 :
    countLessons allButLast longCourse = (200, 201)
      ∧ allButLast "m1" (tallyId 200) = false
      ∧ getCourseProgress [longCourse] allButLast "anatomy" = 100
      ∧ ¬ (getCourseProgress [longCourse] allButLast "anatomy" < 100) := by
  have e : getCourseProgress [longCourse] allButLast "anatomy" = 100 := by
    simp only [getCourseProgress, longCourse_found, longCourse_counts]
    norm_num [jsRound]
  refine ⟨longCourse_counts, longCourse_last_open, e, ?_⟩
  rw [e]
  decide

/-- C30, amended. `getCourseProgress` returns an integer between 0 and 100; it
returns 0 when the course is unknown or has no lessons; for a known course it
is below 100 exactly when fewer than 99.5 percent of the lessons are completed
(200 * completed < 199 * total), hence whenever a lesson is not completed and
the course has fewer than 200 lessons. -/
theorem getCourseProgress_range (courses : List Course) (progress : String → String → Bool)
    (courseId : String) :
    0 ≤ getCourseProgress courses progress courseId
      ∧ getCourseProgress courses progress courseId ≤ 100
      ∧ ((courses.find? fun c => c.id == courseId) = none →
          getCourseProgress courses progress courseId = 0)
      ∧ ∀ course : Course, (courses.find? fun c => c.id == courseId) = some course →
          (totalCount course = 0 → getCourseProgress courses progress courseId = 0)
          ∧ (0 < totalCount course →
              (getCourseProgress courses progress courseId < 100
                ↔ 200 * completedCount progress course < 199 * totalCount course))
          ∧ ((∃ module ∈ course.modules, ∃ lesson ∈ module.lessons,
                progress module.id lesson.id = false) →
              totalCount course < 200 →
              getCourseProgress courses progress courseId < 100) := by
  have known : ∀ course : Course, (courses.find? fun c => c.id == courseId) = some course →
      0 ≤ getCourseProgress courses progress courseId
        ∧ getCourseProgress courses progress courseId ≤ 100
        ∧ (totalCount course = 0 → getCourseProgress courses progress courseId = 0)
        ∧ (0 < totalCount course →
            (getCourseProgress courses progress courseId < 100
              ↔ 200 * completedCount progress course < 199 * totalCount course)) := by
    intro course hfind
    rw [getCourseProgress_of_find courses progress courseId course hfind]
    by_cases h0 : totalCount course = 0
    · simp [h0]
    · have hpos : 0 < totalCount course := Nat.pos_of_ne_zero h0
      have hr := jsRound_percent (completedCount progress course) (totalCount course)
        (completedCount_le_totalCount progress course) hpos
      rw [if_neg h0]
      exact ⟨hr.1, hr.2.1, fun h => absurd h h0, fun _ => hr.2.2⟩
  cases hfind : (courses.find? fun c => c.id == courseId) with
  | none =>
    have e : getCourseProgress courses progress courseId = 0 := by
      simp only [getCourseProgress, hfind]
    rw [e]
    exact ⟨le_refl 0, by decide, fun _ => rfl, fun course h => by simp at h⟩
  | some found =>
    obtain ⟨h0, h100, hzero, hiff⟩ := known found hfind
    refine ⟨h0, h100, fun h => by simp at h, ?_⟩
    intro course hc
    have hcf : found = course := Option.some.inj hc
    subst hcf
    refine ⟨hzero, hiff, fun hopen hsmall => ?_⟩
    have hlt := completedCount_lt_totalCount progress found hopen
    have hpos : 0 < totalCount found := by omega
    exact (hiff hpos).mpr (by omega)

/-- Witness for C30 amended: with two of three lessons completed the progress
is below 100, and an unknown course gives 0. -/
theorem getCourseProgress_range_witness :
    getCourseProgress [shortCourse] twoOfThree "intro" < 100
      ∧ getCourseProgress [shortCourse] twoOfThree "algebra" = 0 :=
  ⟨((getCourseProgress_range [shortCourse] twoOfThree "intro").2.2.2 shortCourse
      (by decide)).2.2
      ⟨{ id := "m1", lessons := [{ id := "l1" }, { id := "l2" }, { id := "l3" }] },
        by decide, { id := "l3" }, by decide, by decide⟩
      (by decide),
   (getCourseProgress_range [shortCourse] twoOfThree "algebra").2.2.1 (by decide)⟩

end OmniLearn
